import Mathlib

/-
  Verification development for the AeroLogix AI OCR pipeline
  (backend/services/ocr_service.py and backend/routes/ocr.py).

  The Python code manipulates JSON-like dictionaries; we embed those values
  as the inductive type `JValue` below and translate each Python function
  into a Lean function over `JValue`.  Machine floats are modelled by `ℚ`
  (the special values inf/nan and underscore digit separators accepted by
  Python's `float` are outside the modelled domain).  Code that can raise
  is modelled with `Except String`.
-/

namespace AeroLogix

/-- JSON-like values as produced by `json.loads` and manipulated by the
    OCR service.  Objects are association lists (Python dicts have unique
    keys; lookups take the first binding). -/
inductive JValue where
  | null : JValue
  | bool : Bool → JValue
  | num : ℚ → JValue
  | str : String → JValue
  | arr : List JValue → JValue
  | obj : List (String × JValue) → JValue

abbrev JObj := List (String × JValue)

/-- Key lookup in an object, `none` when the key is absent. -/
def jLookup (fields : JObj) (k : String) : Option JValue :=
  (fields.find? (fun p => p.1 == k)).map Prod.snd

/-- Python `d.get(k, default)`: the default applies only when the key is
    absent; a key bound to `None` yields `None`. -/
def jGetD (fields : JObj) (k : String) (d : JValue) : JValue :=
  (jLookup fields k).getD d

/-- Python `d.get(k)` (default `None`). -/
def jGet (fields : JObj) (k : String) : JValue :=
  jGetD fields k JValue.null

/-- Python truthiness of a JSON value: `None`, `False`, `0`, `""`, `[]`
    and `\x7b\x7d` are falsy, everything else truthy. -/
def jTruthy : JValue → Bool
  | .null => false
  | .bool b => b
  | .num q => q != 0
  | .str s => s != ""
  | .arr l => !l.isEmpty
  | .obj l => !l.isEmpty

/-- Python `a or b` on JSON values: `a` when truthy, else `b`. -/
def pyOr (a b : JValue) : JValue :=
  if jTruthy a then a else b

/-- Whitespace as matched by `\s` in Python's `re` and stripped by
    `str.strip()` (ASCII range; Unicode whitespace is out of modelled
    scope). -/
def isPySpace (c : Char) : Bool :=
  c == ' ' || c == '\t' || c == '\n' || c == '\r' || c == '\x0b' || c == '\x0c'

/-! ### Numeric parsing: model of Python `float(value)` -/

def digitVal (c : Char) : ℕ := c.toNat - 48

def natOfDigits (l : List Char) : ℕ :=
  l.foldl (fun acc c => acc * 10 + digitVal c) 0

def intOfDigits (l : List Char) : ℚ :=
  (natOfDigits l : ℚ)

def fracOfDigits (l : List Char) : ℚ :=
  l.foldr (fun c acc => (digitVal c + acc) / 10) 0

/-- Mantissa of a Python float literal: `digits [. digits]` or `. digits`,
    at least one digit overall.  Returns the value and the unconsumed
    suffix. -/
def parseMantissa (l : List Char) : Option (ℚ × List Char) :=
  let ip := l.takeWhile Char.isDigit
  let rest := l.dropWhile Char.isDigit
  match rest with
  | '.' :: rest2 =>
      let fp := rest2.takeWhile Char.isDigit
      let rest3 := rest2.dropWhile Char.isDigit
      if ip.isEmpty && fp.isEmpty then none
      else some (intOfDigits ip + fracOfDigits fp, rest3)
  | _ => if ip.isEmpty then none else some (intOfDigits ip, rest)

/-- Optional exponent part `e[+-]digits` of a Python float literal. -/
def parseExponent (m : ℚ) (l : List Char) : Option (ℚ × List Char) :=
  match l with
  | [] => some (m, [])
  | c :: rest =>
    if c == 'e' || c == 'E' then
      let (neg, rest2) : Bool × List Char :=
        match rest with
        | '+' :: r => (false, r)
        | '-' :: r => (true, r)
        | r => (false, r)
      let ds := rest2.takeWhile Char.isDigit
      let rest3 := rest2.dropWhile Char.isDigit
      if ds.isEmpty then none
      else some (if neg then m / 10 ^ natOfDigits ds else m * 10 ^ natOfDigits ds, rest3)
    else some (m, l)

/-- Model of Python `float(s)` on strings: optional surrounding
    whitespace, optional sign, mantissa, optional exponent; `none` when
    the string does not parse (`inf`/`nan`/underscores are modelled as
    failures, see the header comment). -/
def parsePyFloat (s : String) : Option ℚ :=
  let l := s.data.dropWhile isPySpace
  let l := ((l.reverse.dropWhile isPySpace).reverse)
  let (sgn, l2) : ℚ × List Char :=
    match l with
    | '+' :: r => (1, r)
    | '-' :: r => (-1, r)
    | r => (1, r)
  match parseMantissa l2 with
  | none => none
  | some (m, rest) =>
    match parseExponent m rest with
    | none => none
    | some (v, rest2) => if rest2.isEmpty then some (sgn * v) else none

/-- Embeds `OCRService._safe_float`: `None` stays absent, numbers and
    bools convert (`float(True) = 1.0`), strings go through `float(s)`,
    lists/dicts raise `TypeError` which is caught and becomes absent. -/
def safe_float : JValue → Option ℚ
  | .null => none
  | .bool b => some (if b then 1 else 0)
  | .num q => some q
  | .str s => parsePyFloat s
  | .arr _ => none
  | .obj _ => none

/-- Encode an optional number back into a stored JSON value (`None` or a
    number), as the transform dict literals do. -/
def optQ : Option ℚ → JValue
  | none => JValue.null
  | some q => JValue.num q

/-! ### Response sanitizer: model of `OCRService._clean_json_response` -/

/-- Model of Python `re.sub` with pattern three backticks + `json` + `\s*`
    and empty replacement: removes every occurrence of the fence marker
    together with the whitespace that follows it, scanning left to
    right.  Fuel-indexed for structural recursion; every step consumes at
    least one character, so fuel equal to the length is never
    exhausted. -/
def stripJsonFencesF : ℕ → List Char → List Char
  | 0, l => l
  | fuel + 1, l =>
    match l with
    | '`' :: '`' :: '`' :: 'j' :: 's' :: 'o' :: 'n' :: rest =>
        stripJsonFencesF fuel (rest.dropWhile isPySpace)
    | c :: rest => c :: stripJsonFencesF fuel rest
    | [] => []

def stripJsonFences (l : List Char) : List Char :=
  stripJsonFencesF l.length l

/-- Model of Python `re.sub` with pattern three backticks + `\s*` and
    empty replacement (the second substitution in
    `_clean_json_response`). -/
def stripBacktickFencesF : ℕ → List Char → List Char
  | 0, l => l
  | fuel + 1, l =>
    match l with
    | '`' :: '`' :: '`' :: rest =>
        stripBacktickFencesF fuel (rest.dropWhile isPySpace)
    | c :: rest => c :: stripBacktickFencesF fuel rest
    | [] => []

def stripBacktickFences (l : List Char) : List Char :=
  stripBacktickFencesF l.length l

/-- Python `str.strip()`: drop whitespace from both ends. -/
def pyStrip (l : List Char) : List Char :=
  ((l.dropWhile isPySpace).reverse.dropWhile isPySpace).reverse

/-- Python `s.find(c)` as an `Option`: index of the first occurrence. -/
def pyFind (c : Char) : List Char → Option ℕ
  | [] => none
  | x :: xs => if x = c then some 0 else (pyFind c xs).map (· + 1)

/-- Python `s.rfind(c)` as an `Option`: index of the last occurrence. -/
def pyRFind (c : Char) (l : List Char) : Option ℕ :=
  match pyFind c l.reverse with
  | none => none
  | some i => some (l.length - 1 - i)

/-- The text remaining after `_clean_json_response` has removed the code
    fences and stripped surrounding whitespace (the state right before the
    brace search). -/
def strippedResponse (s : String) : List Char :=
  pyStrip (stripBacktickFences (stripJsonFences s.data))

/-- Embeds `OCRService._clean_json_response`: strip fences and
    whitespace, then return the slice from the first brace through the
    last closing brace when both exist, else the stripped text. -/
def clean_json_response (s : String) : String :=
  let r := strippedResponse s
  match pyFind '{' r, pyRFind '}' r with
  | some st, some en => String.mk ((r.drop st).take (en + 1 - st))
  | _, _ => String.mk r

/-! ### Schema normalizer: models of `_transform_*` in `ocr_service.py`

Python raises when a transform iterates a non-iterable sub-collection
(`TypeError`) or calls `.get` on a non-dict element (`AttributeError`);
both are modelled with `Except.error`.  Iterating a string yields its
characters and iterating a dict yields its keys, so those cases reach the
`.get` failure unless empty. -/

/-- Python iteration over a JSON value: lists yield elements, strings
    yield one-character strings, dicts yield their keys; other values
    raise `TypeError`. -/
def pyIter : JValue → Except String (List JValue)
  | .arr items => .ok items
  | .str s => .ok (s.data.map (fun c => JValue.str (String.mk [c])))
  | .obj fields => .ok (fields.map (fun kv => JValue.str kv.1))
  | _ => .error "TypeError: object is not iterable"

/-- Python attribute access `x.get`: only dicts have it. -/
def pyGetAttrObj : JValue → Except String JObj
  | .obj fields => .ok fields
  | _ => .error "AttributeError: object has no attribute get"

/-- Access `.get` on every element in turn, failing like Python at the
    first element that has no `.get`. -/
def getAttrEach : List JValue → Except String (List JObj)
  | [] => .ok []
  | it :: rest => do
    let f ← pyGetAttrObj it
    let fs ← getAttrEach rest
    pure (f :: fs)

/-- Iterate a sub-collection value and return the dict fields of every
    element, failing like Python when an element has no `.get`. -/
def getFieldsList (v : JValue) : Except String (List JObj) := do
  let items ← pyIter v
  getAttrEach items

/-- A Python list comprehension `[f(x) for x in v]` where `f` only uses
    `x.get`: every element must be a dict. -/
def mapGetItems (v : JValue) (f : JObj → JObj) : Except String (List JValue) := do
  let fieldsList ← getFieldsList v
  pure (fieldsList.map (fun fields => JValue.obj (f fields)))

/-- Per-item normalizer for `ad_sb_references` entries in
    `_transform_maintenance_report`. -/
def transformAdSbRef (ref : JObj) : JObj :=
  [ ("adsb_type", jGetD ref "adsb_type" (JValue.str "AD")),
    ("reference_number", jGetD ref "reference_number" (JValue.str "")),
    ("status", jGetD ref "status" (JValue.str "UNKNOWN")),
    ("compliance_date", jGet ref "compliance_date"),
    ("airframe_hours", optQ (safe_float (jGet ref "airframe_hours"))),
    ("engine_hours", optQ (safe_float (jGet ref "engine_hours"))),
    ("propeller_hours", optQ (safe_float (jGet ref "propeller_hours"))),
    ("description", jGet ref "description") ]

/-- Per-item normalizer for `parts_replaced` entries in
    `_transform_maintenance_report`.  Note that `quantity` is passed
    through unchanged (no `_safe_float`). -/
def transformPart (part : JObj) : JObj :=
  [ ("part_number", jGetD part "part_number" (JValue.str "")),
    ("name", jGet part "name"),
    ("serial_number", jGet part "serial_number"),
    ("quantity", jGetD part "quantity" (JValue.num 1)),
    ("price", optQ (safe_float (jGet part "price"))),
    ("supplier", jGet part "supplier") ]

/-- Per-item normalizer for `stc_references` entries in
    `_transform_maintenance_report`. -/
def transformStcRef (stc : JObj) : JObj :=
  [ ("stc_number", jGetD stc "stc_number" (JValue.str "")),
    ("title", jGet stc "title"),
    ("description", jGet stc "description"),
    ("installation_date", jGet stc "installation_date") ]

/-- Embeds `OCRService._transform_maintenance_report`. -/
def transform_maintenance_report (data : JObj) : Except String JObj := do
  let adsb ← mapGetItems (jGetD data "ad_sb_references" (JValue.arr [])) transformAdSbRef
  let parts ← mapGetItems (jGetD data "parts_replaced" (JValue.arr [])) transformPart
  let stcs ← mapGetItems (jGetD data "stc_references" (JValue.arr [])) transformStcRef
  pure
    [ ("date", jGet data "date"),
      ("ame_name", jGet data "ame_name"),
      ("amo_name", jGet data "amo_name"),
      ("ame_license", jGet data "ame_license"),
      ("work_order_number", jGet data "work_order_number"),
      ("description", jGet data "description"),
      ("airframe_hours", optQ (safe_float (jGet data "airframe_hours"))),
      ("engine_hours", optQ (safe_float (jGet data "engine_hours"))),
      ("propeller_hours", optQ (safe_float (jGet data "propeller_hours"))),
      ("remarks", jGet data "remarks"),
      ("labor_cost", optQ (safe_float (jGet data "labor_cost"))),
      ("parts_cost", optQ (safe_float (jGet data "parts_cost"))),
      ("total_cost", optQ (safe_float (jGet data "total_cost"))),
      ("ad_sb_references", JValue.arr adsb),
      ("parts_replaced", JValue.arr parts),
      ("stc_references", JValue.arr stcs) ]

/-- Embeds `OCRService._transform_stc`: wraps the top-level object as a
    single STC reference; total, never fails. -/
def transform_stc (data : JObj) : JObj :=
  [ ("stc_references", JValue.arr
      [ JValue.obj
        [ ("stc_number", jGetD data "stc_number" (JValue.str "")),
          ("title", jGet data "title"),
          ("description", jGet data "description"),
          ("holder", jGet data "holder"),
          ("applicable_models", jGetD data "applicable_models" (JValue.arr [])),
          ("installation_date", jGet data "installation_date"),
          ("installation_airframe_hours",
            optQ (safe_float (jGet data "installation_airframe_hours"))),
          ("installed_by", jGet data "installed_by"),
          ("work_order_reference", jGet data "work_order_reference"),
          ("remarks", jGet data "remarks") ] ]),
    ("ad_sb_references", JValue.arr []),
    ("parts_replaced", JValue.arr []) ]

/-- Per-item normalizer for invoice line items in `_transform_invoice`:
    the price is `total_price or unit_price` (Python truthiness) fed to
    `_safe_float`; the supplier comes from the invoice header. -/
def transformInvoicePart (supplier : JValue) (part : JObj) : JObj :=
  [ ("part_number", jGetD part "part_number" (JValue.str "")),
    ("name", jGet part "name"),
    ("serial_number", jGet part "serial_number"),
    ("quantity", jGetD part "quantity" (JValue.num 1)),
    ("price", optQ (safe_float (pyOr (jGet part "total_price") (jGet part "unit_price")))),
    ("supplier", supplier),
    ("manufacturer", jGet part "manufacturer") ]

/-- Embeds `OCRService._transform_invoice`. -/
def transform_invoice (data : JObj) : Except String JObj := do
  let parts ← mapGetItems (jGetD data "parts" (JValue.arr []))
    (transformInvoicePart (jGet data "supplier"))
  pure
    [ ("invoice_number", jGet data "invoice_number"),
      ("date", jGet data "invoice_date"),
      ("supplier", jGet data "supplier"),
      ("total_cost", optQ (safe_float (jGet data "total"))),
      ("currency", jGetD data "currency" (JValue.str "USD")),
      ("parts_replaced", JValue.arr parts),
      ("ad_sb_references", JValue.arr []),
      ("stc_references", JValue.arr []) ]

/-- Embeds `OCRService._transform_to_standard_format`: per-type dispatch;
    the three recognized types require a dict (`data.get` would raise
    otherwise) and unrecognized types pass the data through unchanged. -/
def transform_to_standard_format (data : JValue) (documentType : String) :
    Except String JValue :=
  if documentType == "maintenance_report" then do
    let d ← pyGetAttrObj data
    let r ← transform_maintenance_report d
    pure (JValue.obj r)
  else if documentType == "stc" then do
    let d ← pyGetAttrObj data
    pure (JValue.obj (transform_stc d))
  else if documentType == "invoice" then do
    let d ← pyGetAttrObj data
    let r ← transform_invoice d
    pure (JValue.obj r)
  else
    pure data

/-! ### Model of `json.loads`

A fuel-indexed recursive-descent JSON parser.  Surrogate-pair
recombination in `\u` escapes is out of modelled scope; error messages
are simplified (only their presence matters to the service, which stores
`str(e)`). -/

/-- JSON structural whitespace. -/
def isJsonWs (c : Char) : Bool :=
  c == ' ' || c == '\t' || c == '\n' || c == '\r'

def hexDigitVal (c : Char) : Option ℕ :=
  if '0' ≤ c ∧ c ≤ '9' then some (c.toNat - 48)
  else if 'a' ≤ c ∧ c ≤ 'f' then some (c.toNat - 87)
  else if 'A' ≤ c ∧ c ≤ 'F' then some (c.toNat - 55)
  else none

/-- Parse the body of a JSON string after the opening quote; returns the
    decoded string and the text after the closing quote. -/
def parseJsonStringBody (fuel : ℕ) (l : List Char) : Except String (String × List Char) :=
  match fuel, l with
  | 0, _ => .error "Unterminated string"
  | _, [] => .error "Unterminated string"
  | fuel + 1, c :: rest =>
    if c = '"' then .ok ("", rest)
    else if c = '\\' then
      match rest with
      | [] => .error "Unterminated string"
      | e :: rest2 =>
        let esc : Option Char :=
          if e = '"' then some '"'
          else if e = '\\' then some '\\'
          else if e = '/' then some '/'
          else if e = 'b' then some '\x08'
          else if e = 'f' then some '\x0c'
          else if e = 'n' then some '\n'
          else if e = 'r' then some '\r'
          else if e = 't' then some '\t'
          else none
        match esc with
        | some ch =>
          (parseJsonStringBody fuel rest2).map (fun p => (String.mk (ch :: p.1.data), p.2))
        | none =>
          if e = 'u' then
            match rest2 with
            | h1 :: h2 :: h3 :: h4 :: r3 =>
              match hexDigitVal h1, hexDigitVal h2, hexDigitVal h3, hexDigitVal h4 with
              | some a, some b, some c2, some d =>
                let code := ((a * 16 + b) * 16 + c2) * 16 + d
                (parseJsonStringBody fuel r3).map
                  (fun p => (String.mk (Char.ofNat code :: p.1.data), p.2))
              | _, _, _, _ => .error "Invalid unicode escape"
            | _ => .error "Invalid unicode escape"
          else .error "Invalid escape"
    else (parseJsonStringBody fuel rest).map (fun p => (String.mk (c :: p.1.data), p.2))

/-- Fractional part of a JSON number. -/
def parseJsonFrac (ip : ℚ) (l : List Char) : Except String (ℚ × List Char) :=
  match l with
  | '.' :: r =>
    let ds := r.takeWhile Char.isDigit
    let r2 := r.dropWhile Char.isDigit
    if ds.isEmpty then .error "Expecting digit after decimal point"
    else .ok (ip + fracOfDigits ds, r2)
  | _ => .ok (ip, l)

/-- Exponent part of a JSON number. -/
def parseJsonExp (m : ℚ) (l : List Char) : Except String (ℚ × List Char) :=
  match l with
  | c :: r =>
    if c = 'e' ∨ c = 'E' then
      let (neg, r2) : Bool × List Char :=
        match r with
        | '+' :: rr => (false, rr)
        | '-' :: rr => (true, rr)
        | rr => (false, rr)
      let ds := r2.takeWhile Char.isDigit
      let r3 := r2.dropWhile Char.isDigit
      if ds.isEmpty then .error "Expecting digit in exponent"
      else .ok (if neg then m / 10 ^ natOfDigits ds else m * 10 ^ natOfDigits ds, r3)
    else .ok (m, l)
  | [] => .ok (m, [])

/-- A JSON number: optional minus, integer part without leading zeros,
    optional fraction and exponent. -/
def parseJsonNumber (l : List Char) : Except String (ℚ × List Char) :=
  let (sgn, l1) : ℚ × List Char :=
    match l with
    | '-' :: r => (-1, r)
    | r => (1, r)
  match l1 with
  | '0' :: r => do
    let (m, r2) ← parseJsonFrac 0 r
    let (v, r3) ← parseJsonExp m r2
    pure (sgn * v, r3)
  | c :: _ => do
    if c.isDigit then
      let ds := l1.takeWhile Char.isDigit
      let r := l1.dropWhile Char.isDigit
      let (m, r2) ← parseJsonFrac (intOfDigits ds) r
      let (v, r3) ← parseJsonExp m r2
      pure (sgn * v, r3)
    else .error "Expecting value"
  | [] => .error "Expecting value"

mutual

/-- Parse one JSON value, returning it with the unconsumed suffix. -/
def parseJsonValue (fuel : ℕ) (l : List Char) : Except String (JValue × List Char) :=
  match fuel with
  | 0 => .error "Too deeply nested"
  | fuel + 1 =>
    match l.dropWhile isJsonWs with
    | [] => .error "Expecting value"
    | '{' :: rest =>
      (match rest.dropWhile isJsonWs with
       | '}' :: r2 => .ok (JValue.obj [], r2)
       | _ => (parseJsonMembers fuel rest).map (fun p => (JValue.obj p.1, p.2)))
    | '[' :: rest =>
      (match rest.dropWhile isJsonWs with
       | ']' :: r2 => .ok (JValue.arr [], r2)
       | _ => (parseJsonItems fuel rest).map (fun p => (JValue.arr p.1, p.2)))
    | '"' :: rest =>
      (parseJsonStringBody (rest.length + 1) rest).map (fun p => (JValue.str p.1, p.2))
    | 't' :: 'r' :: 'u' :: 'e' :: rest => .ok (JValue.bool true, rest)
    | 'f' :: 'a' :: 'l' :: 's' :: 'e' :: rest => .ok (JValue.bool false, rest)
    | 'n' :: 'u' :: 'l' :: 'l' :: rest => .ok (JValue.null, rest)
    | l2 => (parseJsonNumber l2).map (fun p => (JValue.num p.1, p.2))

/-- Parse the members of a JSON object after the opening brace (at least
    one member). -/
def parseJsonMembers (fuel : ℕ) (l : List Char) :
    Except String (List (String × JValue) × List Char) :=
  match fuel with
  | 0 => .error "Too deeply nested"
  | fuel + 1 =>
    match l.dropWhile isJsonWs with
    | '"' :: rest => do
      let (k, r1) ← parseJsonStringBody (rest.length + 1) rest
      match r1.dropWhile isJsonWs with
      | ':' :: r2 => do
        let (v, r3) ← parseJsonValue fuel r2
        match r3.dropWhile isJsonWs with
        | ',' :: r4 => (parseJsonMembers fuel r4).map (fun p => ((k, v) :: p.1, p.2))
        | '}' :: r4 => .ok ([(k, v)], r4)
        | _ => .error "Expecting comma or closing brace"
      | _ => .error "Expecting colon"
    | _ => .error "Expecting property name"

/-- Parse the items of a JSON array after the opening bracket (at least
    one item). -/
def parseJsonItems (fuel : ℕ) (l : List Char) :
    Except String (List JValue × List Char) :=
  match fuel with
  | 0 => .error "Too deeply nested"
  | fuel + 1 => do
    let (v, r1) ← parseJsonValue fuel l
    match r1.dropWhile isJsonWs with
    | ',' :: r2 => (parseJsonItems fuel r2).map (fun p => (v :: p.1, p.2))
    | ']' :: r2 => .ok ([v], r2)
    | _ => .error "Expecting comma or closing bracket"

end

/-- Model of `json.loads`: parse one value and require only whitespace
    after it. -/
def pyJsonLoads (s : String) : Except String JValue := do
  let (v, rest) ← parseJsonValue (2 * s.length + 2) s.data
  if (rest.dropWhile isJsonWs).isEmpty then pure v
  else .error "Extra data"

/-! ### Extraction client: model of `OCRService.analyze_image`

The network round trip is external; the model takes the backend's raw
text reply as a parameter and covers everything `analyze_image` does with
it: sanitize, parse with fallback, normalize, and catch any exception
into a failure result. -/

/-- Result dictionary returned by `analyze_image`. -/
structure AnalyzeResult where
  success : Bool
  raw_text : Option String
  extracted_data : Option JValue
  error : Option String

/-- Embeds the response processing of `OCRService.analyze_image`: clean
    the reply, try `json.loads`, fall back to a `raw_response` and
    `parse_error` object when parsing fails, then transform to the
    standard format; an exception in the transform is caught by the
    surrounding `try` and becomes a failure result. -/
def analyze_image (rawResponse : String) (documentType : String) : AnalyzeResult :=
  let cleaned := clean_json_response rawResponse
  let extracted : JValue :=
    match pyJsonLoads cleaned with
    | .ok j => j
    | .error e =>
        JValue.obj [("raw_response", JValue.str rawResponse), ("parse_error", JValue.str e)]
  match transform_to_standard_format extracted documentType with
  | .ok structured =>
      { success := true, raw_text := some rawResponse,
        extracted_data := some structured, error := none }
  | .error e =>
      { success := false, raw_text := none, extracted_data := none, error := some e }

/-! ### Scan lifecycle: model of the `scan_document` route -/

inductive SubmitError where
  | notFound : SubmitError
  | quotaExceeded : Int → SubmitError
  | analysisFailed : String → SubmitError

/-- Observable outcome of one `POST /api/ocr/scan` request: the HTTP
    result, whether a scan row was inserted, and the row's final stored
    fields. -/
structure SubmitOutcome where
  result : Except SubmitError Unit
  scanCreated : Bool
  finalStatus : Option String
  storedRawText : Option String
  storedExtracted : Option JValue
  storedError : Option String

/-- Embeds the `scan_document` route handler: aircraft ownership check,
    monthly quota check (`-1` is the unlimited sentinel, checked before
    the scan row is inserted), then synchronous extraction; the scan row
    ends `COMPLETED` with the extracted data or `FAILED` with the error
    text.  The caller's identity, the DB scan count for the current
    month and the backend reply are parameters. -/
def scan_document (aircraftOwned : Bool) (ocrLimit : Int) (ocrCountThisMonth : ℕ)
    (documentType : String) (rawModelResponse : String) : SubmitOutcome :=
  if !aircraftOwned then
    { result := .error .notFound, scanCreated := false, finalStatus := none,
      storedRawText := none, storedExtracted := none, storedError := none }
  else if ocrLimit != -1 && (ocrCountThisMonth : Int) ≥ ocrLimit then
    { result := .error (.quotaExceeded ocrLimit), scanCreated := false, finalStatus := none,
      storedRawText := none, storedExtracted := none, storedError := none }
  else
    let ocr := analyze_image rawModelResponse documentType
    if ocr.success then
      { result := .ok (), scanCreated := true, finalStatus := some "COMPLETED",
        storedRawText := ocr.raw_text, storedExtracted := ocr.extracted_data,
        storedError := none }
    else
      { result := .error (.analysisFailed ((ocr.error).getD "Unknown error")),
        scanCreated := true, finalStatus := some "FAILED",
        storedRawText := none, storedExtracted := none, storedError := ocr.error }

/-! ### Fan-out applier: model of the `apply_ocr_results` route

The route looks the scan up by id and owner (404 when absent — the
lookup is external record storage and the model takes the found scan as a
parameter), checks the status, then creates the downstream records.  Any
exception inside the fan-out `try` block is caught and surfaced as a 500
service error; records created before the failing step persist and the
scan status is not advanced.  `datetime.fromisoformat` acceptance is
modelled for plain `YYYY-MM-DD` strings (time-suffixed forms are out of
modelled scope; a bare `except` turns every rejected value into the
fallback, which is the only behavior the routes rely on). -/

/-- Model of `datetime.fromisoformat` acceptance on a stored JSON value:
    only date strings parse, anything else raises (caught by the bare
    `except` at every call site). -/
def isIsoDateString (s : String) : Bool :=
  match s.data with
  | [y1, y2, y3, y4, '-', m1, m2, '-', d1, d2] =>
    y1.isDigit && y2.isDigit && y3.isDigit && y4.isDigit &&
    m1.isDigit && m2.isDigit && d1.isDigit && d2.isDigit &&
    (let m := 10 * digitVal m1 + digitVal m2
     let d := 10 * digitVal d1 + digitVal d2
     decide (1 ≤ m ∧ m ≤ 12 ∧ 1 ≤ d ∧ d ≤ 31))
  | _ => false

/-- The parsed date (kept as its string rendering) when
    `datetime.fromisoformat` succeeds, `none` when it raises. -/
def isoDateOf : JValue → Option String
  | .str s => if isIsoDateString s then some s else none
  | _ => none

/-- One stored OCR scan row, as read back by the apply route. -/
structure Scan where
  status : String
  aircraft_id : String
  extracted_data : JValue

/-- The aircraft's three rolling hour counters. -/
structure Aircraft where
  airframe_hours : JValue
  engine_hours : JValue
  propeller_hours : JValue

inductive ApplyError where
  | invalidState : String → ApplyError
  | serviceError : String → ApplyError

/-- The `applied` summary returned on success. -/
structure ApplySummary where
  maintenanceRecordCreated : Bool
  adsb_records : ℕ
  part_records : ℕ
  stc_records : ℕ
  elt_updated : Bool

/-- Observable outcome of one apply request: HTTP result, the scan's
    final status, the aircraft's final counters, and the documents
    inserted into each downstream collection (including those inserted
    before a mid-fan-out failure). -/
structure ApplyOutcome where
  result : Except ApplyError ApplySummary
  scanStatus : String
  aircraft : Aircraft
  maintenanceDocs : List JObj
  adsbDocs : List JObj
  partDocs : List JObj
  stcDocs : List JObj
  eltDoc : Option JObj
  eltUpserted : Bool

/-- Step 1 of the fan-out: overwrite each aircraft counter whose
    extracted value is truthy (`if extracted_data.get(...)`), leaving the
    others unchanged. -/
def updateAircraftHoursStep (ed : JObj) (a : Aircraft) : Aircraft :=
  { airframe_hours :=
      if jTruthy (jGet ed "airframe_hours") then jGet ed "airframe_hours"
      else a.airframe_hours,
    engine_hours :=
      if jTruthy (jGet ed "engine_hours") then jGet ed "engine_hours"
      else a.engine_hours,
    propeller_hours :=
      if jTruthy (jGet ed "propeller_hours") then jGet ed "propeller_hours"
      else a.propeller_hours }

/-- The `parts_replaced` list comprehension inside the maintenance
    document literal. -/
def partNumbersOf (v : JValue) : Except String (List JValue) := do
  let fl ← getFieldsList v
  pure (fl.map (fun f => jGetD f "part_number" (JValue.str "")))

/-- The `regulatory_references` list comprehension inside the maintenance
    document literal. -/
def referenceNumbersOf (v : JValue) : Except String (List JValue) := do
  let fl ← getFieldsList v
  pure (fl.map (fun f => jGetD f "reference_number" (JValue.str "")))

/-- Step 2 of the fan-out: create one maintenance record when a
    description or work-order number is present (Python truthiness). -/
def maintenanceStep (userId aircraftId scanId now : String) (ed : JObj) :
    Except String (List JObj) :=
  if jTruthy (jGet ed "description") || jTruthy (jGet ed "work_order_number") then do
    let pr ← partNumbersOf (jGetD ed "parts_replaced" (JValue.arr []))
    let rr ← referenceNumbersOf (jGetD ed "ad_sb_references" (JValue.arr []))
    let maintenanceDate :=
      if jTruthy (jGet ed "date") then (isoDateOf (jGet ed "date")).getD now else now
    pure
      [ [ ("user_id", JValue.str userId),
          ("aircraft_id", JValue.str aircraftId),
          ("maintenance_type", JValue.str "ROUTINE"),
          ("date", JValue.str maintenanceDate),
          ("description", jGetD ed "description" (JValue.str "OCR Extracted Maintenance")),
          ("ame_name", jGet ed "ame_name"),
          ("amo_name", jGet ed "amo_name"),
          ("ame_license", jGet ed "ame_license"),
          ("work_order_number", jGet ed "work_order_number"),
          ("airframe_hours", jGet ed "airframe_hours"),
          ("engine_hours", jGet ed "engine_hours"),
          ("propeller_hours", jGet ed "propeller_hours"),
          ("remarks", jGet ed "remarks"),
          ("labor_cost", jGet ed "labor_cost"),
          ("parts_cost", jGet ed "parts_cost"),
          ("total_cost", jGet ed "total_cost"),
          ("parts_replaced", JValue.arr pr),
          ("regulatory_references", JValue.arr rr),
          ("source", JValue.str "ocr"),
          ("ocr_scan_id", JValue.str scanId),
          ("created_at", JValue.str now),
          ("updated_at", JValue.str now) ] ]
  else pure []

/-- One AD/SB compliance document; `none` when the entry is skipped for a
    falsy reference number (`continue`). -/
def mkAdsbDoc (userId aircraftId scanId now : String) (adsb : JObj) : Option JObj :=
  if !jTruthy (jGet adsb "reference_number") then none
  else
    let complianceDate : JValue :=
      if jTruthy (jGet adsb "compliance_date") then
        match isoDateOf (jGet adsb "compliance_date") with
        | some d => JValue.str d
        | none => JValue.null
      else JValue.null
    some
      [ ("user_id", JValue.str userId),
        ("aircraft_id", JValue.str aircraftId),
        ("adsb_type", jGetD adsb "adsb_type" (JValue.str "AD")),
        ("reference_number", jGet adsb "reference_number"),
        ("title", jGet adsb "description"),
        ("description", jGet adsb "description"),
        ("status", jGetD adsb "status" (JValue.str "UNKNOWN")),
        ("compliance_date", complianceDate),
        ("compliance_airframe_hours", jGet adsb "airframe_hours"),
        ("compliance_engine_hours", jGet adsb "engine_hours"),
        ("compliance_propeller_hours", jGet adsb "propeller_hours"),
        ("source", JValue.str "ocr"),
        ("ocr_scan_id", JValue.str scanId),
        ("created_at", JValue.str now),
        ("updated_at", JValue.str now) ]

/-- One installed-part document; `none` when the entry is skipped for a
    falsy part number. -/
def mkPartDoc (userId aircraftId scanId now : String) (edAirframeHours : JValue)
    (part : JObj) : Option JObj :=
  if !jTruthy (jGet part "part_number") then none
  else
    some
      [ ("user_id", JValue.str userId),
        ("aircraft_id", JValue.str aircraftId),
        ("part_number", jGet part "part_number"),
        ("name", jGetD part "name" (jGet part "part_number")),
        ("serial_number", jGet part "serial_number"),
        ("quantity", jGetD part "quantity" (JValue.num 1)),
        ("purchase_price", jGet part "price"),
        ("supplier", jGet part "supplier"),
        ("installation_date", JValue.str now),
        ("installation_airframe_hours", edAirframeHours),
        ("installed_on_aircraft", JValue.bool true),
        ("source", JValue.str "ocr"),
        ("ocr_scan_id", JValue.str scanId),
        ("created_at", JValue.str now),
        ("updated_at", JValue.str now) ]

/-- One STC document; `none` when the entry is skipped for a falsy STC
    number. -/
def mkStcDoc (userId aircraftId scanId now : String) (ed : JObj) (stc : JObj) :
    Option JObj :=
  if !jTruthy (jGet stc "stc_number") then none
  else
    let installationDate : Option String :=
      if jTruthy (jGet stc "installation_date") then isoDateOf (jGet stc "installation_date")
      else none
    some
      [ ("user_id", JValue.str userId),
        ("aircraft_id", JValue.str aircraftId),
        ("stc_number", jGet stc "stc_number"),
        ("title", jGet stc "title"),
        ("description", jGet stc "description"),
        ("holder", jGet stc "holder"),
        ("applicable_models", jGetD stc "applicable_models" (JValue.arr [])),
        ("installation_date", JValue.str (installationDate.getD now)),
        ("installation_airframe_hours",
          pyOr (jGet stc "installation_airframe_hours") (jGet ed "airframe_hours")),
        ("installed_by", pyOr (jGet stc "installed_by") (jGet ed "ame_name")),
        ("source", JValue.str "ocr"),
        ("ocr_scan_id", JValue.str scanId),
        ("created_at", JValue.str now),
        ("updated_at", JValue.str now) ]

/-- A fan-out loop body over already-obtained iteration items: documents
    created before a non-dict element persist, and the error aborts the
    rest (Python raises at the failing element). -/
def fanoutItems (items : List JValue) (mk : JObj → Option JObj) :
    List JObj × Option String :=
  match items with
  | [] => ([], none)
  | JValue.obj fields :: rest =>
    let r := fanoutItems rest mk
    (match mk fields with
     | some d => (d :: r.1, r.2)
     | none => r)
  | _ :: _ => ([], some "AttributeError: object has no attribute get")

/-- A fan-out loop `for x in extracted_data.get(key, [])` with a skip
    condition and an insert per kept element. -/
def fanout (v : JValue) (mk : JObj → Option JObj) : List JObj × Option String :=
  match pyIter v with
  | .error e => ([], some e)
  | .ok items => fanoutItems items mk

/-- Step 6 of the fan-out: upsert the ELT record when the locator-beacon
    block is present, truthy and marked detected; date sub-fields that
    fail to parse are silently omitted.  Returns the `elt_created` flag
    and the document written. -/
def eltStep (userId aircraftId scanId now : String) (eltExists : Bool) (ed : JObj) :
    Except String (Bool × Option JObj) :=
  let eltData := jGetD ed "elt_data" (JValue.obj [])
  if jTruthy eltData then do
    let f ← pyGetAttrObj eltData
    if jTruthy (jGet f "detected") then
      let base : JObj :=
        [ ("brand", jGet f "brand"),
          ("model", jGet f "model"),
          ("serial_number", jGet f "serial_number"),
          ("beacon_hex_id", jGet f "beacon_hex_id"),
          ("source", JValue.str "ocr"),
          ("ocr_scan_id", JValue.str scanId),
          ("updated_at", JValue.str now) ]
      let dateFields : List String :=
        ["installation_date", "certification_date", "battery_expiry_date", "battery_install_date"]
      let withDates := base ++ dateFields.filterMap (fun k =>
        if jTruthy (jGet f k) then (isoDateOf (jGet f k)).map (fun d => (k, JValue.str d))
        else none)
      let withBattery := withDates ++
        (if jTruthy (jGet f "battery_interval_months") then
          [("battery_interval_months", jGet f "battery_interval_months")]
         else [])
      let doc := if eltExists then withBattery
        else withBattery ++
          [ ("user_id", JValue.str userId),
            ("aircraft_id", JValue.str aircraftId),
            ("created_at", JValue.str now) ]
      pure (true, some doc)
    else pure (false, none)
  else pure (false, none)

/-- Embeds the `apply_ocr_results` route handler on an already-found
    scan: status precondition, then the six fan-out steps, then the
    transition to `APPLIED`.  A failure inside the fan-out keeps the
    records already written and leaves the status unchanged. -/
def apply_ocr_results (scan : Scan) (aircraft : Aircraft)
    (updateAircraftHours : Bool) (eltExists : Bool)
    (userId scanId now : String) : ApplyOutcome :=
  if scan.status != "COMPLETED" then
    { result := .error (.invalidState "Can only apply completed OCR scans"),
      scanStatus := scan.status, aircraft := aircraft,
      maintenanceDocs := [], adsbDocs := [], partDocs := [], stcDocs := [],
      eltDoc := none, eltUpserted := false }
  else
    match pyGetAttrObj scan.extracted_data with
    | .error e =>
      { result := .error (.serviceError e),
        scanStatus := scan.status, aircraft := aircraft,
        maintenanceDocs := [], adsbDocs := [], partDocs := [], stcDocs := [],
        eltDoc := none, eltUpserted := false }
    | .ok ed =>
      let aircraftId := scan.aircraft_id
      let a2 := if updateAircraftHours then updateAircraftHoursStep ed aircraft else aircraft
      match maintenanceStep userId aircraftId scanId now ed with
      | .error e =>
        { result := .error (.serviceError e),
          scanStatus := scan.status, aircraft := a2,
          maintenanceDocs := [], adsbDocs := [], partDocs := [], stcDocs := [],
          eltDoc := none, eltUpserted := false }
      | .ok maintDocs =>
        match fanout (jGetD ed "ad_sb_references" (JValue.arr []))
            (mkAdsbDoc userId aircraftId scanId now) with
        | (adsbDocs, some e) =>
          { result := .error (.serviceError e),
            scanStatus := scan.status, aircraft := a2,
            maintenanceDocs := maintDocs, adsbDocs := adsbDocs, partDocs := [], stcDocs := [],
            eltDoc := none, eltUpserted := false }
        | (adsbDocs, none) =>
          match fanout (jGetD ed "parts_replaced" (JValue.arr []))
              (mkPartDoc userId aircraftId scanId now (jGet ed "airframe_hours")) with
          | (partDocs, some e) =>
            { result := .error (.serviceError e),
              scanStatus := scan.status, aircraft := a2,
              maintenanceDocs := maintDocs, adsbDocs := adsbDocs, partDocs := partDocs,
              stcDocs := [], eltDoc := none, eltUpserted := false }
          | (partDocs, none) =>
            match fanout (jGetD ed "stc_references" (JValue.arr []))
                (mkStcDoc userId aircraftId scanId now ed) with
            | (stcDocs, some e) =>
              { result := .error (.serviceError e),
                scanStatus := scan.status, aircraft := a2,
                maintenanceDocs := maintDocs, adsbDocs := adsbDocs, partDocs := partDocs,
                stcDocs := stcDocs, eltDoc := none, eltUpserted := false }
            | (stcDocs, none) =>
              match eltStep userId aircraftId scanId now eltExists ed with
              | .error e =>
                { result := .error (.serviceError e),
                  scanStatus := scan.status, aircraft := a2,
                  maintenanceDocs := maintDocs, adsbDocs := adsbDocs, partDocs := partDocs,
                  stcDocs := stcDocs, eltDoc := none, eltUpserted := false }
              | .ok (eltUpd, eltDoc) =>
                { result := .ok
                    { maintenanceRecordCreated := !maintDocs.isEmpty,
                      adsb_records := adsbDocs.length,
                      part_records := partDocs.length,
                      stc_records := stcDocs.length,
                      elt_updated := eltUpd },
                  scanStatus := "APPLIED", aircraft := a2,
                  maintenanceDocs := maintDocs, adsbDocs := adsbDocs, partDocs := partDocs,
                  stcDocs := stcDocs, eltDoc := eltDoc, eltUpserted := eltUpd }

/-! ### Shape of extractions on which the fan-out cannot raise -/

/-- Whether a value is a dict. -/
def isObjV : JValue → Bool
  | .obj _ => true
  | _ => false

/-- Whether a value is a list whose elements are all dicts — the shape
    every per-type normalizer produces for the three sub-collections. -/
def isObjArr : JValue → Bool
  | .arr items => items.all isObjV
  | _ => false

/-- Extractions on which every fan-out step succeeds: a dict whose three
    iterated sub-collections are (absent or) lists of dicts and whose
    locator-beacon block is absent, falsy or a dict.  Every output of the
    three recognized normalizers has this shape; a `logbook`/`other` scan
    stores the parsed JSON unchanged and may violate it. -/
def wellFormedExtraction : JValue → Bool
  | .obj ed =>
      isObjArr (jGetD ed "ad_sb_references" (JValue.arr [])) &&
      isObjArr (jGetD ed "parts_replaced" (JValue.arr [])) &&
      isObjArr (jGetD ed "stc_references" (JValue.arr [])) &&
      (!jTruthy (jGetD ed "elt_data" (JValue.obj [])) ||
        isObjV (jGetD ed "elt_data" (JValue.obj [])))
  | _ => false

/-- Lookup of a key inside a JSON value that should be an object. -/
def objLookup : JValue → String → Option JValue
  | .obj fields, k => jLookup fields k
  | _, _ => none

/-- Whether a submit result is the quota rejection. -/
def isQuotaError : Except SubmitError Unit → Bool
  | .error (.quotaExceeded _) => true
  | _ => false

/-- Whether a fallible computation succeeded. -/
def exceptIsOk {α : Type} : Except String α → Bool
  | .ok _ => true
  | .error _ => false

theorem exceptBindOk {α β : Type} (a : α) (f : α → Except String β) :
    (Except.ok a >>= f : Except String β) = f a := rfl

theorem exceptPureDef {α : Type} (a : α) : (pure a : Except String α) = Except.ok a := rfl

theorem getAttrEachOk (items : List JValue) (h : items.all isObjV = true) :
    ∃ l, getAttrEach items = Except.ok l := by
  induction items with
  | nil => exact ⟨[], rfl⟩
  | cons it rest ih =>
    simp only [List.all_cons, Bool.and_eq_true] at h
    obtain ⟨hit, hrest⟩ := h
    obtain ⟨l, hl⟩ := ih hrest
    cases it <;> simp [isObjV] at hit
    case obj fields =>
      refine ⟨fields :: l, ?_⟩
      simp only [getAttrEach, pyGetAttrObj, exceptBindOk]
      rw [hl]
      rfl

theorem getFieldsListOk (v : JValue) (h : isObjArr v = true) :
    ∃ l, getFieldsList v = Except.ok l := by
  cases v <;> simp [isObjArr] at h
  case arr items =>
    obtain ⟨l, hl⟩ := getAttrEachOk items (by simpa using h)
    refine ⟨l, ?_⟩
    simp only [getFieldsList, pyIter, exceptBindOk]
    exact hl

theorem fanoutItemsNone (items : List JValue) (mk : JObj → Option JObj)
    (h : items.all isObjV = true) : (fanoutItems items mk).2 = none := by
  induction items with
  | nil => rfl
  | cons it rest ih =>
    simp only [List.all_cons, Bool.and_eq_true] at h
    obtain ⟨hit, hrest⟩ := h
    cases it <;> simp [isObjV] at hit
    case obj fields =>
      simp only [fanoutItems]
      cases mk fields <;> simp [ih hrest]

theorem fanoutNone (v : JValue) (mk : JObj → Option JObj) (h : isObjArr v = true) :
    (fanout v mk).2 = none := by
  cases v <;> simp [isObjArr] at h
  case arr items =>
    simpa [fanout, pyIter] using fanoutItemsNone items mk (by simpa using h)

theorem fanoutPairNone (v : JValue) (mk : JObj → Option JObj) (h : isObjArr v = true) :
    ∃ docs, fanout v mk = (docs, none) := by
  refine ⟨(fanout v mk).1, ?_⟩
  have h2 := fanoutNone v mk h
  exact Prod.ext rfl h2

theorem maintenanceStepOk (userId aircraftId scanId now : String) (ed : JObj)
    (hparts : isObjArr (jGetD ed "parts_replaced" (JValue.arr [])) = true)
    (hadsb : isObjArr (jGetD ed "ad_sb_references" (JValue.arr [])) = true) :
    ∃ docs, maintenanceStep userId aircraftId scanId now ed = Except.ok docs := by
  obtain ⟨lp, hlp⟩ := getFieldsListOk _ hparts
  obtain ⟨lr, hlr⟩ := getFieldsListOk _ hadsb
  unfold maintenanceStep
  cases hcond : (jTruthy (jGet ed "description") || jTruthy (jGet ed "work_order_number"))
  · exact ⟨[], rfl⟩
  · simp only [if_true, partNumbersOf, referenceNumbersOf]
    rw [hlp]
    simp only [exceptBindOk]
    rw [hlr]
    simp only [exceptBindOk, exceptPureDef]
    exact ⟨_, rfl⟩

theorem eltStepOk (userId aircraftId scanId now : String) (eltExists : Bool) (ed : JObj)
    (h : (!jTruthy (jGetD ed "elt_data" (JValue.obj [])) ||
          isObjV (jGetD ed "elt_data" (JValue.obj []))) = true) :
    ∃ r, eltStep userId aircraftId scanId now eltExists ed = Except.ok r := by
  simp only [eltStep]
  cases htr : jTruthy (jGetD ed "elt_data" (JValue.obj []))
  · exact ⟨(false, none), rfl⟩
  · simp only [htr, Bool.not_true, Bool.false_or] at h
    cases hv : jGetD ed "elt_data" (JValue.obj []) <;> rw [hv] at h <;> simp [isObjV] at h
    case obj f =>
      simp only [pyGetAttrObj, exceptBindOk]
      cases hd : jTruthy (jGet f "detected")
      · exact ⟨(false, none), rfl⟩
      · exact ⟨_, rfl⟩

theorem exceptBindErr {α β : Type} (e : String) (f : α → Except String β) :
    (Except.error e >>= f : Except String β) = Except.error e := rfl

theorem pyFindIsSomeIffMem (c : Char) (l : List Char) :
    (pyFind c l).isSome = true ↔ c ∈ l := by
  induction l with
  | nil => simp [pyFind]
  | cons x xs ih =>
    by_cases hx : x = c
    · subst hx
      simp [pyFind]
    · simp only [pyFind, if_neg hx, Option.isSome_map', List.mem_cons, ih]
      constructor
      · exact Or.inr
      · rintro (hc | hc)
        · exact absurd hc.symm hx
        · exact hc

theorem pyRFindIsSomeIffMem (c : Char) (l : List Char) :
    (pyRFind c l).isSome = true ↔ c ∈ l := by
  simp only [pyRFind]
  cases hf : pyFind c l.reverse with
  | none =>
    have := pyFindIsSomeIffMem c l.reverse
    rw [hf] at this
    simp only [Option.isSome_none] at this
    simp [List.mem_reverse] at this
    simp [this]
  | some i =>
    have := pyFindIsSomeIffMem c l.reverse
    rw [hf] at this
    simp only [Option.isSome_some] at this
    simp [List.mem_reverse] at this
    simp [this]

theorem mapGetItemsOk (v : JValue) (f : JObj → JObj) (h : isObjArr v = true) :
    ∃ l, mapGetItems v f = Except.ok l := by
  obtain ⟨fl, hfl⟩ := getFieldsListOk v h
  exact ⟨fl.map (fun fields => JValue.obj (f fields)), by
    simp only [mapGetItems]
    rw [hfl]
    rfl⟩

theorem getAttrEachMapObj (parts : List JObj) :
    getAttrEach (parts.map JValue.obj) = Except.ok parts := by
  induction parts with
  | nil => rfl
  | cons p rest ih =>
    simp only [List.map_cons, getAttrEach, pyGetAttrObj, exceptBindOk]
    rw [ih]
    rfl

theorem mapGetItemsObjs (parts : List JObj) (f : JObj → JObj) :
    mapGetItems (JValue.arr (parts.map JValue.obj)) f =
      Except.ok (parts.map (fun p => JValue.obj (f p))) := by
  simp only [mapGetItems, getFieldsList, pyIter, exceptBindOk]
  rw [getAttrEachMapObj]
  rfl

theorem eltStepNoElt (userId aircraftId scanId now : String) (eltExists : Bool) (ed : JObj)
    (h : jLookup ed "elt_data" = none) :
    eltStep userId aircraftId scanId now eltExists ed = Except.ok (false, none) := by
  simp only [eltStep, jGetD, h, Option.getD_none]
  rfl

theorem applyInvalidState (scan : Scan) (aircraft : Aircraft) (u e : Bool)
    (uid sid now : String) (h : scan.status ≠ "COMPLETED") :
    apply_ocr_results scan aircraft u e uid sid now =
      { result := Except.error (ApplyError.invalidState "Can only apply completed OCR scans"),
        scanStatus := scan.status, aircraft := aircraft,
        maintenanceDocs := [], adsbDocs := [], partDocs := [], stcDocs := [],
        eltDoc := none, eltUpserted := false } := by
  have hb : (scan.status != "COMPLETED") = true := by
    simp [bne_iff_ne, h]
  simp only [apply_ocr_results, hb, if_true]

theorem applyOkOfWellFormed (scan : Scan) (aircraft : Aircraft) (u e : Bool)
    (uid sid now : String)
    (hst : scan.status = "COMPLETED")
    (hwf : wellFormedExtraction scan.extracted_data = true) :
    ∃ s, (apply_ocr_results scan aircraft u e uid sid now).result = Except.ok s ∧
      (apply_ocr_results scan aircraft u e uid sid now).scanStatus = "APPLIED" := by
  obtain ⟨st, aid, edv⟩ := scan
  simp only at hst hwf
  subst hst
  rcases edv with _ | b | q | s | items | ed
  · simp [wellFormedExtraction] at hwf
  · simp [wellFormedExtraction] at hwf
  · simp [wellFormedExtraction] at hwf
  · simp [wellFormedExtraction] at hwf
  · simp [wellFormedExtraction] at hwf
  simp only [wellFormedExtraction, Bool.and_eq_true] at hwf
  obtain ⟨⟨⟨hadsb, hparts⟩, hstc⟩, helt⟩ := hwf
  obtain ⟨md, hmd⟩ := maintenanceStepOk uid aid sid now ed hparts hadsb
  obtain ⟨adocs, hadocs⟩ := fanoutPairNone _ (mkAdsbDoc uid aid sid now) hadsb
  obtain ⟨pdocs, hpdocs⟩ :=
    fanoutPairNone _ (mkPartDoc uid aid sid now (jGet ed "airframe_hours")) hparts
  obtain ⟨sdocs, hsdocs⟩ := fanoutPairNone _ (mkStcDoc uid aid sid now ed) hstc
  obtain ⟨er, her⟩ := eltStepOk uid aid sid now e ed helt
  obtain ⟨eb, edoc⟩ := er
  simp only [apply_ocr_results, pyGetAttrObj]
  rw [hmd, hadocs, hpdocs, hsdocs, her]
  exact ⟨_, rfl, rfl⟩

theorem applyAircraftEq (scan : Scan) (aircraft : Aircraft) (u e : Bool)
    (uid sid now : String) (ed : JObj)
    (hst : scan.status = "COMPLETED") (hed : scan.extracted_data = JValue.obj ed) :
    (apply_ocr_results scan aircraft u e uid sid now).aircraft =
      (if u then updateAircraftHoursStep ed aircraft else aircraft) := by
  obtain ⟨st, aid, edv⟩ := scan
  simp only at hst hed
  subst hst
  subst hed
  simp only [apply_ocr_results, pyGetAttrObj]
  cases hmd : maintenanceStep uid aid sid now ed
  · rfl
  · cases hadocs : fanout (jGetD ed "ad_sb_references" (JValue.arr []))
      (mkAdsbDoc uid aid sid now) with
    | mk adocs aerr =>
      cases aerr
      · cases hpdocs : fanout (jGetD ed "parts_replaced" (JValue.arr []))
          (mkPartDoc uid aid sid now (jGet ed "airframe_hours")) with
        | mk pdocs perr =>
          cases perr
          · cases hsdocs : fanout (jGetD ed "stc_references" (JValue.arr []))
              (mkStcDoc uid aid sid now ed) with
            | mk sdocs serr =>
              cases serr
              · cases her : eltStep uid aid sid now e ed with
                | error e2 => rfl
                | ok r =>
                  obtain ⟨eb, edoc⟩ := r
                  rfl
              · rfl
          · rfl
      · rfl

theorem applyAircraftUnchangedNoFlag (scan : Scan) (aircraft : Aircraft) (e : Bool)
    (uid sid now : String) :
    (apply_ocr_results scan aircraft false e uid sid now).aircraft = aircraft := by
  obtain ⟨st, aid, edv⟩ := scan
  by_cases hst : st = "COMPLETED"
  · subst hst
    rcases edv with _ | b | q | s | items | ed
    · rfl
    · rfl
    · rfl
    · rfl
    · rfl
    · exact (applyAircraftEq ⟨"COMPLETED", aid, JValue.obj ed⟩ aircraft false e
        uid sid now ed rfl rfl).trans (by simp)
  · rw [applyInvalidState ⟨st, aid, edv⟩ aircraft false e uid sid now (by simpa using hst)]

/-! ### Claim theorems -/

/-- C8 (confirmed): the response sanitizer strips code-fence markers and
    surrounding whitespace, and then — whenever the remaining text
    contains at least one opening and one closing brace — returns exactly
    the substring from the first opening brace through the last closing
    brace; otherwise it returns the stripped text unchanged. -/
theorem claim_c8_sanitizer (s : String) :
    (('{' ∈ strippedResponse s ∧ '}' ∈ strippedResponse s) →
      ∃ i j, pyFind '{' (strippedResponse s) = some i ∧
        pyRFind '}' (strippedResponse s) = some j ∧
        clean_json_response s = String.mk (((strippedResponse s).drop i).take (j + 1 - i))) ∧
    (¬('{' ∈ strippedResponse s ∧ '}' ∈ strippedResponse s) →
      clean_json_response s = String.mk (strippedResponse s)) := by
  constructor
  · rintro ⟨h1, h2⟩
    obtain ⟨i, hi⟩ := Option.isSome_iff_exists.mp ((pyFindIsSomeIffMem '{' _).mpr h1)
    obtain ⟨j, hj⟩ := Option.isSome_iff_exists.mp ((pyRFindIsSomeIffMem '}' _).mpr h2)
    refine ⟨i, j, hi, hj, ?_⟩
    simp only [clean_json_response]
    rw [hi, hj]
  · intro h
    simp only [clean_json_response]
    by_cases h1 : '{' ∈ strippedResponse s
    · have h2 : '}' ∉ strippedResponse s := fun hc => h ⟨h1, hc⟩
      have hj : pyRFind '}' (strippedResponse s) = none := by
        have hs2 := pyRFindIsSomeIffMem '}' (strippedResponse s)
        rw [← hs2] at h2
        exact Option.not_isSome_iff_eq_none.mp (by simpa using h2)
      rw [hj]
      cases hi : pyFind '{' (strippedResponse s) <;> rfl
    · have hi : pyFind '{' (strippedResponse s) = none := by
        have hs1 := pyFindIsSomeIffMem '{' (strippedResponse s)
        rw [← hs1] at h1
        exact Option.not_isSome_iff_eq_none.mp (by simpa using h1)
      rw [hi]

/-- C8 (witness): the end-to-end scenario — a prose sentence followed by
    a triple-backtick-fenced JSON object sanitizes to just the JSON
    substring. -/
theorem claim_c8_sanitizer_witness :
    ('{' ∈ strippedResponse "Here is the JSON:\n```json\n\x7b\"model\": \"C172\"\x7d\n```" ∧
     '}' ∈ strippedResponse "Here is the JSON:\n```json\n\x7b\"model\": \"C172\"\x7d\n```") ∧
    clean_json_response "Here is the JSON:\n```json\n\x7b\"model\": \"C172\"\x7d\n```" =
      "\x7b\"model\": \"C172\"\x7d" := by
  refine ⟨⟨by decide, by decide⟩, ?_⟩
  obtain ⟨i, j, hi, hj, hc⟩ :=
    (claim_c8_sanitizer "Here is the JSON:\n```json\n\x7b\"model\": \"C172\"\x7d\n```").1
      ⟨by decide, by decide⟩
  have hi18 : i = 18 := by
    have h0 : pyFind '{'
        (strippedResponse "Here is the JSON:\n```json\n\x7b\"model\": \"C172\"\x7d\n```") =
        some 18 := rfl
    rw [h0] at hi
    exact (Option.some_inj.mp hi).symm
  have hj34 : j = 34 := by
    have h0 : pyRFind '}'
        (strippedResponse "Here is the JSON:\n```json\n\x7b\"model\": \"C172\"\x7d\n```") =
        some 34 := rfl
    rw [h0] at hj
    exact (Option.some_inj.mp hj).symm
  rw [hc, hi18, hj34]
  rfl

/-- C2 (counterexample): the claim includes part quantity among the
    numeric fields that become absent on parse failure, but the
    normalizer passes `quantity` through unchanged — a part entry with
    `quantity` `"N/A"` normalizes to a record whose quantity field is the
    string `"N/A"`, not absent. -/
theorem claim_c2_counterexample :
    safe_float (JValue.str "N/A") = none ∧
    (transform_maintenance_report
        [("parts_replaced", JValue.arr [JValue.obj
          [("part_number", JValue.str "X"), ("quantity", JValue.str "N/A")]])]).toOption.bind
      (fun r => jLookup r "parts_replaced") =
      some (JValue.arr [JValue.obj
        [("part_number", JValue.str "X"), ("name", JValue.null),
         ("serial_number", JValue.null), ("quantity", JValue.str "N/A"),
         ("price", JValue.null), ("supplier", JValue.null)]]) :=
  ⟨rfl, rfl⟩

/-- C2 (amended): every numeric field of the canonical record except
    part quantity is produced by `safe_float` applied to the supplied
    value — absent whenever the value fails to parse as a number, with no
    exception and no substituted zero (e.g. `"N/A"` parses to absent);
    part quantity is passed through unchanged, defaulting to 1 only when
    the key is missing. -/
theorem claim_c2_numeric_fields :
    (∀ (d : JObj) (r : JObj), transform_maintenance_report d = Except.ok r →
      jLookup r "airframe_hours" = some (optQ (safe_float (jGet d "airframe_hours"))) ∧
      jLookup r "engine_hours" = some (optQ (safe_float (jGet d "engine_hours"))) ∧
      jLookup r "propeller_hours" = some (optQ (safe_float (jGet d "propeller_hours"))) ∧
      jLookup r "labor_cost" = some (optQ (safe_float (jGet d "labor_cost"))) ∧
      jLookup r "parts_cost" = some (optQ (safe_float (jGet d "parts_cost"))) ∧
      jLookup r "total_cost" = some (optQ (safe_float (jGet d "total_cost")))) ∧
    (∀ ref : JObj,
      jLookup (transformAdSbRef ref) "airframe_hours" =
        some (optQ (safe_float (jGet ref "airframe_hours"))) ∧
      jLookup (transformAdSbRef ref) "engine_hours" =
        some (optQ (safe_float (jGet ref "engine_hours"))) ∧
      jLookup (transformAdSbRef ref) "propeller_hours" =
        some (optQ (safe_float (jGet ref "propeller_hours")))) ∧
    (∀ part : JObj,
      jLookup (transformPart part) "price" = some (optQ (safe_float (jGet part "price"))) ∧
      jLookup (transformPart part) "quantity" = some (jGetD part "quantity" (JValue.num 1))) ∧
    safe_float (JValue.str "N/A") = none := by
  refine ⟨?_, ?_, ?_, rfl⟩
  · intro d r h
    simp only [transform_maintenance_report] at h
    cases h1 : mapGetItems (jGetD d "ad_sb_references" (JValue.arr [])) transformAdSbRef <;>
      rw [h1] at h
    · simp [exceptBindErr] at h
    cases h2 : mapGetItems (jGetD d "parts_replaced" (JValue.arr [])) transformPart <;>
      rw [h2] at h
    · simp [exceptBindOk, exceptBindErr] at h
    cases h3 : mapGetItems (jGetD d "stc_references" (JValue.arr [])) transformStcRef <;>
      rw [h3] at h
    · simp [exceptBindOk, exceptBindErr] at h
    simp only [exceptBindOk, exceptPureDef, Except.ok.injEq] at h
    subst h
    exact ⟨rfl, rfl, rfl, rfl, rfl, rfl⟩
  · intro ref
    exact ⟨rfl, rfl, rfl⟩
  · intro part
    exact ⟨rfl, rfl⟩

/-- C2 (witness): the invariant at the spec's own example — input
    airframe hours `"N/A"` normalizes to an absent field. -/
theorem claim_c2_numeric_fields_witness :
    transform_maintenance_report [("airframe_hours", JValue.str "N/A")] =
      Except.ok
        [ ("date", JValue.null), ("ame_name", JValue.null), ("amo_name", JValue.null),
          ("ame_license", JValue.null), ("work_order_number", JValue.null),
          ("description", JValue.null), ("airframe_hours", JValue.null),
          ("engine_hours", JValue.null), ("propeller_hours", JValue.null),
          ("remarks", JValue.null), ("labor_cost", JValue.null),
          ("parts_cost", JValue.null), ("total_cost", JValue.null),
          ("ad_sb_references", JValue.arr []), ("parts_replaced", JValue.arr []),
          ("stc_references", JValue.arr []) ] ∧
    jLookup
        [ ("date", JValue.null), ("ame_name", JValue.null), ("amo_name", JValue.null),
          ("ame_license", JValue.null), ("work_order_number", JValue.null),
          ("description", JValue.null), ("airframe_hours", JValue.null),
          ("engine_hours", JValue.null), ("propeller_hours", JValue.null),
          ("remarks", JValue.null), ("labor_cost", JValue.null),
          ("parts_cost", JValue.null), ("total_cost", JValue.null),
          ("ad_sb_references", JValue.arr []), ("parts_replaced", JValue.arr []),
          ("stc_references", JValue.arr []) ] "airframe_hours" = some JValue.null := by
  refine ⟨rfl, ?_⟩
  have h := (claim_c2_numeric_fields.1 [("airframe_hours", JValue.str "N/A")] _ rfl).1
  exact h

/-- C3 (counterexample): the claim says an entry lacking a reference
    number is dropped at normalization time, but normalizing a
    maintenance report with one empty directive entry yields ONE
    canonical entry — reference number defaulted to the empty string and
    status defaulted to `"UNKNOWN"` — not zero. -/
theorem claim_c3_counterexample :
    (transform_maintenance_report
        [("ad_sb_references", JValue.arr [JValue.obj []])]).toOption.bind
      (fun r => jLookup r "ad_sb_references") =
      some (JValue.arr [JValue.obj
        [("adsb_type", JValue.str "AD"), ("reference_number", JValue.str ""),
         ("status", JValue.str "UNKNOWN"), ("compliance_date", JValue.null),
         ("airframe_hours", JValue.null), ("engine_hours", JValue.null),
         ("propeller_hours", JValue.null), ("description", JValue.null)]]) := rfl

/-- C3 (amended): normalizing a payload with one directive entry always
    yields exactly one canonical entry, with the reference number
    defaulted to `""` and the compliance status defaulted to `"UNKNOWN"`
    when the input omits them; the entry with an empty reference number
    is dropped later, at apply time, where it creates no compliance
    record. -/
theorem claim_c3_directive_entries :
    (∀ (d : JObj) (entry : JObj) (r : JObj),
      jGetD d "ad_sb_references" (JValue.arr []) = JValue.arr [JValue.obj entry] →
      transform_maintenance_report d = Except.ok r →
      jLookup r "ad_sb_references" = some (JValue.arr [JValue.obj (transformAdSbRef entry)])) ∧
    (∀ entry : JObj, jLookup entry "reference_number" = none →
      jLookup (transformAdSbRef entry) "reference_number" = some (JValue.str "")) ∧
    (∀ entry : JObj, jLookup entry "status" = none →
      jLookup (transformAdSbRef entry) "status" = some (JValue.str "UNKNOWN")) ∧
    (∀ (userId aircraftId scanId now : String) (entry : JObj),
      jLookup entry "reference_number" = none →
      mkAdsbDoc userId aircraftId scanId now (transformAdSbRef entry) = none) := by
  refine ⟨?_, ?_, ?_, ?_⟩
  · intro d entry r hcoll h
    simp only [transform_maintenance_report] at h
    rw [hcoll] at h
    have hm : mapGetItems (JValue.arr [JValue.obj entry]) transformAdSbRef =
        Except.ok [JValue.obj (transformAdSbRef entry)] := rfl
    rw [hm] at h
    cases h2 : mapGetItems (jGetD d "parts_replaced" (JValue.arr [])) transformPart <;>
      rw [h2] at h
    · simp [exceptBindOk, exceptBindErr] at h
    cases h3 : mapGetItems (jGetD d "stc_references" (JValue.arr [])) transformStcRef <;>
      rw [h3] at h
    · simp [exceptBindOk, exceptBindErr] at h
    simp only [exceptBindOk, exceptPureDef, Except.ok.injEq] at h
    subst h
    rfl
  · intro entry href
    have h1 : jLookup (transformAdSbRef entry) "reference_number" =
        some (jGetD entry "reference_number" (JValue.str "")) := rfl
    rw [h1]
    simp only [jGetD, href, Option.getD_none]
  · intro entry hst
    have h1 : jLookup (transformAdSbRef entry) "status" =
        some (jGetD entry "status" (JValue.str "UNKNOWN")) := rfl
    rw [h1]
    simp only [jGetD, hst, Option.getD_none]
  · intro userId aircraftId scanId now entry href
    have h1 : jGet (transformAdSbRef entry) "reference_number" = JValue.str "" := by
      show (some (jGetD entry "reference_number" (JValue.str ""))).getD JValue.null =
        JValue.str ""
      simp only [jGetD, href, Option.getD_none, Option.getD_some]
    have h2 : jTruthy (jGet (transformAdSbRef entry) "reference_number") = false := by
      rw [h1]
      rfl
    simp only [mkAdsbDoc, h2, Bool.not_false, if_true]

/-- C3 (witness): the two round-trip cases of the claim — an empty
    directive entry survives normalization with defaults and creates no
    compliance record at apply time, while one carrying a reference
    number normalizes with its status defaulted to `"UNKNOWN"`. -/
theorem claim_c3_directive_entries_witness :
    jGetD [("ad_sb_references", JValue.arr [JValue.obj []])] "ad_sb_references"
        (JValue.arr []) = JValue.arr [JValue.obj []] ∧
    jLookup ([] : JObj) "reference_number" = none ∧
    mkAdsbDoc "U1" "AC1" "S1" "NOW" (transformAdSbRef []) = none ∧
    jLookup (transformAdSbRef [("reference_number", JValue.str "AD-2024-01")]) "status" =
      some (JValue.str "UNKNOWN") := by
  refine ⟨rfl, rfl, ?_, ?_⟩
  · exact claim_c3_directive_entries.2.2.2 "U1" "AC1" "S1" "NOW" [] rfl
  · exact claim_c3_directive_entries.2.2.1 [("reference_number", JValue.str "AD-2024-01")] rfl

/-- C9 (counterexample): the claim says the line price is the total
    price whenever it is present, but the code uses Python `or`
    truthiness — a line with `total_price` 0 present and `unit_price` 5
    normalizes to price 5, not 0. -/
theorem claim_c9_counterexample :
    (transform_invoice [("parts", JValue.arr [JValue.obj
        [("part_number", JValue.str "P"), ("total_price", JValue.num 0),
         ("unit_price", JValue.num 5)]])]).toOption.bind
      (fun r => jLookup r "parts_replaced") =
      some (JValue.arr [JValue.obj
        [("part_number", JValue.str "P"), ("name", JValue.null),
         ("serial_number", JValue.null), ("quantity", JValue.num 1),
         ("price", JValue.num 5), ("supplier", JValue.null),
         ("manufacturer", JValue.null)]]) := rfl

/-- C9 (amended): each invoice line maps to a part reference whose price
    is `safe_float` of the total price when that value is truthy
    (present, non-null and nonzero), else of the unit price; and the
    directive and certificate sub-collections of the canonical invoice
    record are always empty. -/
theorem claim_c9_invoice :
    (∀ (supplier : JValue) (part : JObj),
      (jTruthy (jGet part "total_price") = true →
        jLookup (transformInvoicePart supplier part) "price" =
          some (optQ (safe_float (jGet part "total_price")))) ∧
      (jTruthy (jGet part "total_price") = false →
        jLookup (transformInvoicePart supplier part) "price" =
          some (optQ (safe_float (jGet part "unit_price"))))) ∧
    (∀ (d : JObj) (r : JObj), transform_invoice d = Except.ok r →
      jLookup r "ad_sb_references" = some (JValue.arr []) ∧
      jLookup r "stc_references" = some (JValue.arr [])) ∧
    (∀ (d : JObj) (parts : List JObj) (r : JObj),
      jGetD d "parts" (JValue.arr []) = JValue.arr (parts.map JValue.obj) →
      transform_invoice d = Except.ok r →
      jLookup r "parts_replaced" =
        some (JValue.arr (parts.map
          (fun p => JValue.obj (transformInvoicePart (jGet d "supplier") p))))) := by
  refine ⟨?_, ?_, ?_⟩
  · intro supplier part
    constructor
    · intro htr
      have h1 : jLookup (transformInvoicePart supplier part) "price" =
          some (optQ (safe_float
            (pyOr (jGet part "total_price") (jGet part "unit_price")))) := rfl
      rw [h1]
      simp only [pyOr, htr, if_true]
    · intro htr
      have h1 : jLookup (transformInvoicePart supplier part) "price" =
          some (optQ (safe_float
            (pyOr (jGet part "total_price") (jGet part "unit_price")))) := rfl
      rw [h1]
      simp only [pyOr, htr, Bool.false_eq_true, if_false]
  · intro d r h
    simp only [transform_invoice] at h
    cases h1 : mapGetItems (jGetD d "parts" (JValue.arr []))
        (transformInvoicePart (jGet d "supplier")) <;> rw [h1] at h
    · simp [exceptBindErr] at h
    simp only [exceptBindOk, exceptPureDef, Except.ok.injEq] at h
    subst h
    exact ⟨rfl, rfl⟩
  · intro d parts r hcoll h
    simp only [transform_invoice] at h
    rw [hcoll, mapGetItemsObjs] at h
    simp only [exceptBindOk, exceptPureDef, Except.ok.injEq] at h
    subst h
    rfl

/-- C9 (witness): a truthy total price is used, a null total price falls
    back to the unit price, and a concrete invoice normalizes with empty
    directive and certificate sub-collections. -/
theorem claim_c9_invoice_witness :
    jTruthy (jGet [("total_price", JValue.num 7)] "total_price") = true ∧
    jLookup (transformInvoicePart JValue.null [("total_price", JValue.num 7)]) "price" =
      some (JValue.num 7) ∧
    transform_invoice [("invoice_number", JValue.str "I-1")] =
      Except.ok
        [ ("invoice_number", JValue.str "I-1"), ("date", JValue.null),
          ("supplier", JValue.null), ("total_cost", JValue.null),
          ("currency", JValue.str "USD"), ("parts_replaced", JValue.arr []),
          ("ad_sb_references", JValue.arr []), ("stc_references", JValue.arr []) ] ∧
    jLookup
        [ ("invoice_number", JValue.str "I-1"), ("date", JValue.null),
          ("supplier", JValue.null), ("total_cost", JValue.null),
          ("currency", JValue.str "USD"), ("parts_replaced", JValue.arr []),
          ("ad_sb_references", JValue.arr []), ("stc_references", JValue.arr []) ]
      "ad_sb_references" = some (JValue.arr []) := by
  refine ⟨rfl, ?_, rfl, ?_⟩
  · exact ((claim_c9_invoice.1 JValue.null [("total_price", JValue.num 7)]).1 rfl)
  · exact ((claim_c9_invoice.2.1 [("invoice_number", JValue.str "I-1")] _ rfl).1)

/-- C6 (counterexample): the claim says the normalizer is total over any
    input mapping, but a maintenance report whose `ad_sb_references` is a
    number makes the per-entry iteration raise a `TypeError` — the
    normalization fails instead of returning a canonical record. -/
theorem claim_c6_counterexample :
    transform_to_standard_format (JValue.obj [("ad_sb_references", JValue.num 1)])
      "maintenance_report" = Except.error "TypeError: object is not iterable" := rfl

/-- C6 (amended): the normalizer is total over any input mapping whose
    iterated sub-collection fields, when present, are arrays of objects
    (wrongly-typed scalar fields are coerced and missing keys default);
    the `stc` transform and the identity transform for unrecognized types
    are unconditionally total; a wrongly-shaped sub-collection value
    raises instead. -/
theorem claim_c6_normalizer_totality :
    (∀ d : JObj,
      isObjArr (jGetD d "ad_sb_references" (JValue.arr [])) = true →
      isObjArr (jGetD d "parts_replaced" (JValue.arr [])) = true →
      isObjArr (jGetD d "stc_references" (JValue.arr [])) = true →
      exceptIsOk (transform_to_standard_format (JValue.obj d) "maintenance_report") = true) ∧
    (∀ d : JObj, exceptIsOk (transform_to_standard_format (JValue.obj d) "stc") = true) ∧
    (∀ d : JObj, isObjArr (jGetD d "parts" (JValue.arr [])) = true →
      exceptIsOk (transform_to_standard_format (JValue.obj d) "invoice") = true) ∧
    (∀ (v : JValue) (t : String),
      t ≠ "maintenance_report" → t ≠ "stc" → t ≠ "invoice" →
      transform_to_standard_format v t = Except.ok v) := by
  refine ⟨?_, ?_, ?_, ?_⟩
  · intro d h1 h2 h3
    obtain ⟨a, ha⟩ := mapGetItemsOk _ transformAdSbRef h1
    obtain ⟨p, hp⟩ := mapGetItemsOk _ transformPart h2
    obtain ⟨st, hstc⟩ := mapGetItemsOk _ transformStcRef h3
    simp only [transform_to_standard_format, beq_self_eq_true, if_true, pyGetAttrObj,
      exceptBindOk, transform_maintenance_report]
    rw [ha]
    simp only [exceptBindOk]
    rw [hp]
    simp only [exceptBindOk]
    rw [hstc]
    rfl
  · intro d
    rfl
  · intro d h1
    obtain ⟨p, hp⟩ := mapGetItemsOk _ (transformInvoicePart (jGet d "supplier")) h1
    simp only [transform_to_standard_format,
      show (("invoice" : String) == "maintenance_report") = false from rfl,
      show (("invoice" : String) == "stc") = false from rfl,
      beq_self_eq_true, if_true, Bool.false_eq_true, if_false, pyGetAttrObj,
      exceptBindOk, transform_invoice]
    rw [hp]
    rfl
  · intro v t h1 h2 h3
    have hb1 : (t == "maintenance_report") = false := beq_eq_false_iff_ne.mpr h1
    have hb2 : (t == "stc") = false := beq_eq_false_iff_ne.mpr h2
    have hb3 : (t == "invoice") = false := beq_eq_false_iff_ne.mpr h3
    simp only [transform_to_standard_format, hb1, hb2, hb3, Bool.false_eq_true, if_false]
    rfl

/-- C6 (witness): a well-shaped maintenance report normalizes
    successfully, and an unrecognized document type passes any value
    through unchanged. -/
theorem claim_c6_normalizer_totality_witness :
    isObjArr (jGetD [("ad_sb_references", JValue.arr [JValue.obj []])] "ad_sb_references"
      (JValue.arr [])) = true ∧
    exceptIsOk (transform_to_standard_format
      (JValue.obj [("ad_sb_references", JValue.arr [JValue.obj []])])
      "maintenance_report") = true ∧
    transform_to_standard_format (JValue.str "free text") "logbook" =
      Except.ok (JValue.str "free text") := by
  refine ⟨rfl, ?_, ?_⟩
  · exact claim_c6_normalizer_totality.1 [("ad_sb_references", JValue.arr [JValue.obj []])]
      rfl rfl rfl
  · exact claim_c6_normalizer_totality.2.2.2 (JValue.str "free text") "logbook"
      (by decide) (by decide) (by decide)

/-- C4 (confirmed): when the plan limit is not the unlimited sentinel
    `-1` and the month's scan count has already reached it, submit fails
    with the quota error before any scan row is created; with the
    unlimited sentinel the quota rejection can never happen, whatever the
    count. -/
theorem claim_c4_quota_boundary :
    (∀ (limit : Int) (count : ℕ) (dt raw : String),
      limit ≠ -1 → limit ≤ (count : Int) →
      scan_document true limit count dt raw =
        { result := Except.error (SubmitError.quotaExceeded limit), scanCreated := false,
          finalStatus := none, storedRawText := none, storedExtracted := none,
          storedError := none }) ∧
    (∀ (owned : Bool) (count : ℕ) (dt raw : String),
      isQuotaError (scan_document owned (-1) count dt raw).result = false) := by
  constructor
  · intro limit count dt raw hne hge
    have h1 : (limit != -1) = true := bne_iff_ne.mpr hne
    have h2 : (limit != -1 && decide ((count : Int) ≥ limit)) = true := by
      rw [h1, Bool.true_and, decide_eq_true_eq]
      exact hge
    simp only [scan_document, Bool.not_true, Bool.false_eq_true, if_false, h2, if_true]
  · intro owned count dt raw
    cases owned
    · rfl
    · have h2 : (((-1 : Int) != -1) && decide ((count : Int) ≥ -1)) = false := by
        rw [bne_self_eq_false, Bool.false_and]
      cases hs : (analyze_image raw dt).success <;>
        simp [scan_document, h2, hs, isQuotaError]

/-- C4 (witness): a user on a 3-scans-per-month plan with 3 scans this
    month is rejected with the quota error and no scan row, and an
    unlimited-plan user with an enormous count is never quota-rejected. -/
theorem claim_c4_quota_boundary_witness :
    ((3 : Int) ≠ -1 ∧ (3 : Int) ≤ ((3 : ℕ) : Int)) ∧
    scan_document true 3 3 "maintenance_report" "x" =
      { result := Except.error (SubmitError.quotaExceeded 3), scanCreated := false,
        finalStatus := none, storedRawText := none, storedExtracted := none,
        storedError := none } ∧
    isQuotaError (scan_document true (-1) 1000000 "maintenance_report" "x").result =
      false := by
  refine ⟨⟨by decide, by decide⟩, ?_, ?_⟩
  · exact claim_c4_quota_boundary.1 3 3 "maintenance_report" "x" (by decide) (by decide)
  · exact claim_c4_quota_boundary.2 true 1000000 "maintenance_report" "x"

/-- C5 (counterexample): on an unparseable reply the scan does reach
    `COMPLETED`, but for the recognized document types the stored
    extracted data is NOT the raw-response/parse-error fallback object —
    the fallback is re-normalized into an all-absent canonical record and
    both fallback keys are lost (only the scan's separate `raw_text`
    field retains the reply). -/
theorem claim_c5_counterexample :
    (analyze_image "This is not JSON" "maintenance_report").success = true ∧
    ((analyze_image "This is not JSON" "maintenance_report").extracted_data).isSome = true ∧
    ((analyze_image "This is not JSON" "maintenance_report").extracted_data.bind
      (fun v => objLookup v "raw_response")) = none ∧
    ((analyze_image "This is not JSON" "maintenance_report").extracted_data.bind
      (fun v => objLookup v "parse_error")) = none ∧
    (scan_document true (-1) 0 "maintenance_report" "This is not JSON").finalStatus =
      some "COMPLETED" :=
  ⟨rfl, rfl, rfl, rfl, rfl⟩

/-- C5 (amended): when the sanitized reply fails to parse as JSON the
    extraction does not raise and the scan still reaches `COMPLETED`; the
    raw-response/parse-error fallback object is built but then passed
    through the per-type normalizer, so for the three recognized document
    types the stored extracted data is the canonical record with every
    field absent and empty sub-collections; the fallback object itself is
    stored only for unrecognized document types. -/
theorem claim_c5_parse_fallback :
    ∀ (raw e : String),
      pyJsonLoads (clean_json_response raw) = Except.error e →
      analyze_image raw "maintenance_report" =
        { success := true, raw_text := some raw,
          extracted_data := some (JValue.obj
            [ ("date", JValue.null), ("ame_name", JValue.null), ("amo_name", JValue.null),
              ("ame_license", JValue.null), ("work_order_number", JValue.null),
              ("description", JValue.null), ("airframe_hours", JValue.null),
              ("engine_hours", JValue.null), ("propeller_hours", JValue.null),
              ("remarks", JValue.null), ("labor_cost", JValue.null),
              ("parts_cost", JValue.null), ("total_cost", JValue.null),
              ("ad_sb_references", JValue.arr []), ("parts_replaced", JValue.arr []),
              ("stc_references", JValue.arr []) ]),
          error := none } ∧
      analyze_image raw "stc" =
        { success := true, raw_text := some raw,
          extracted_data := some (JValue.obj
            [ ("stc_references", JValue.arr
                [ JValue.obj
                  [ ("stc_number", JValue.str ""), ("title", JValue.null),
                    ("description", JValue.null), ("holder", JValue.null),
                    ("applicable_models", JValue.arr []),
                    ("installation_date", JValue.null),
                    ("installation_airframe_hours", JValue.null),
                    ("installed_by", JValue.null),
                    ("work_order_reference", JValue.null),
                    ("remarks", JValue.null) ] ]),
              ("ad_sb_references", JValue.arr []), ("parts_replaced", JValue.arr []) ]),
          error := none } ∧
      analyze_image raw "invoice" =
        { success := true, raw_text := some raw,
          extracted_data := some (JValue.obj
            [ ("invoice_number", JValue.null), ("date", JValue.null),
              ("supplier", JValue.null), ("total_cost", JValue.null),
              ("currency", JValue.str "USD"), ("parts_replaced", JValue.arr []),
              ("ad_sb_references", JValue.arr []), ("stc_references", JValue.arr []) ]),
          error := none } ∧
      (∀ t : String, t ≠ "maintenance_report" → t ≠ "stc" → t ≠ "invoice" →
        analyze_image raw t =
          { success := true, raw_text := some raw,
            extracted_data := some (JValue.obj
              [("raw_response", JValue.str raw), ("parse_error", JValue.str e)]),
            error := none }) ∧
      (scan_document true (-1) 0 "maintenance_report" raw).finalStatus =
        some "COMPLETED" := by
  intro raw e h
  have hm : analyze_image raw "maintenance_report" =
      { success := true, raw_text := some raw,
        extracted_data := some (JValue.obj
          [ ("date", JValue.null), ("ame_name", JValue.null), ("amo_name", JValue.null),
            ("ame_license", JValue.null), ("work_order_number", JValue.null),
            ("description", JValue.null), ("airframe_hours", JValue.null),
            ("engine_hours", JValue.null), ("propeller_hours", JValue.null),
            ("remarks", JValue.null), ("labor_cost", JValue.null),
            ("parts_cost", JValue.null), ("total_cost", JValue.null),
            ("ad_sb_references", JValue.arr []), ("parts_replaced", JValue.arr []),
            ("stc_references", JValue.arr []) ]),
        error := none } := by
    simp only [analyze_image]
    rw [h]
    rfl
  refine ⟨hm, ?_, ?_, ?_, ?_⟩
  · simp only [analyze_image]
    rw [h]
    rfl
  · simp only [analyze_image]
    rw [h]
    rfl
  · intro t h1 h2 h3
    have hb1 : (t == "maintenance_report") = false := beq_eq_false_iff_ne.mpr h1
    have hb2 : (t == "stc") = false := beq_eq_false_iff_ne.mpr h2
    have hb3 : (t == "invoice") = false := beq_eq_false_iff_ne.mpr h3
    simp only [analyze_image]
    rw [h]
    simp only [transform_to_standard_format, hb1, hb2, hb3, Bool.false_eq_true, if_false]
    rfl
  · have hs : (analyze_image raw "maintenance_report").success = true := by
      rw [hm]
    simp only [scan_document, Bool.not_true, Bool.false_eq_true, if_false,
      bne_self_eq_false, Bool.false_and, hs, if_true]

/-- C5 (witness): the fallback behavior at a concrete unparseable
    reply. -/
theorem claim_c5_parse_fallback_witness :
    pyJsonLoads (clean_json_response "This is not JSON") =
      Except.error "Expecting value" ∧
    (analyze_image "This is not JSON" "logbook").extracted_data =
      some (JValue.obj
        [("raw_response", JValue.str "This is not JSON"),
         ("parse_error", JValue.str "Expecting value")]) ∧
    (scan_document true (-1) 0 "maintenance_report" "This is not JSON").finalStatus =
      some "COMPLETED" := by
  refine ⟨rfl, ?_, ?_⟩
  · have h := (claim_c5_parse_fallback "This is not JSON" "Expecting value" rfl).2.2.2.1
      "logbook" (by decide) (by decide) (by decide)
    rw [h]
  · exact (claim_c5_parse_fallback "This is not JSON" "Expecting value" rfl).2.2.2.2

/-- C1 (counterexample): apply on a `COMPLETED` scan does not always
    succeed — a completed scan whose stored extraction (possible for the
    pass-through document types) has a numeric `ad_sb_references` makes
    the fan-out raise, surfacing a service error and leaving the scan
    `COMPLETED` instead of `APPLIED`. -/
theorem claim_c1_counterexample :
    (apply_ocr_results
      ⟨"COMPLETED", "AC1", JValue.obj
        [("description", JValue.str "oil change"), ("ad_sb_references", JValue.num 1)]⟩
      ⟨JValue.num 100, JValue.num 50, JValue.num 25⟩ true false "U1" "S1" "NOW").result =
      Except.error (ApplyError.serviceError "TypeError: object is not iterable") ∧
    (apply_ocr_results
      ⟨"COMPLETED", "AC1", JValue.obj
        [("description", JValue.str "oil change"), ("ad_sb_references", JValue.num 1)]⟩
      ⟨JValue.num 100, JValue.num 50, JValue.num 25⟩ true false "U1" "S1" "NOW").scanStatus =
      "COMPLETED" := ⟨rfl, rfl⟩

/-- C1 (amended): at-most-once application for well-shaped extractions —
    applying a `COMPLETED` scan whose stored extraction is a mapping with
    well-shaped sub-collections (every output of the three recognized
    normalizers qualifies) succeeds and transitions the scan to
    `APPLIED`; applying any scan whose status is not `COMPLETED` —
    including an already-`APPLIED` one and `PENDING`/`PROCESSING`/
    `FAILED` ones — fails with `InvalidState`, creates no records and
    changes nothing. -/
theorem claim_c1_at_most_once (scan : Scan) (aircraft : Aircraft) (u e : Bool)
    (uid sid now : String)
    (hst : scan.status = "COMPLETED")
    (hwf : wellFormedExtraction scan.extracted_data = true) :
    (∃ s, (apply_ocr_results scan aircraft u e uid sid now).result = Except.ok s) ∧
    (apply_ocr_results scan aircraft u e uid sid now).scanStatus = "APPLIED" ∧
    (∀ (scan2 : Scan) (aircraft2 : Aircraft) (u2 e2 : Bool) (uid2 sid2 now2 : String),
      scan2.status ≠ "COMPLETED" →
      apply_ocr_results scan2 aircraft2 u2 e2 uid2 sid2 now2 =
        { result := Except.error (ApplyError.invalidState "Can only apply completed OCR scans"),
          scanStatus := scan2.status, aircraft := aircraft2,
          maintenanceDocs := [], adsbDocs := [], partDocs := [], stcDocs := [],
          eltDoc := none, eltUpserted := false }) := by
  obtain ⟨s, hs1, hs2⟩ := applyOkOfWellFormed scan aircraft u e uid sid now hst hwf
  exact ⟨⟨s, hs1⟩, hs2,
    fun scan2 aircraft2 u2 e2 uid2 sid2 now2 h2 =>
      applyInvalidState scan2 aircraft2 u2 e2 uid2 sid2 now2 h2⟩

/-- C1 (witness): a concrete completed scan applies successfully and
    becomes `APPLIED`; re-applying the now-`APPLIED` scan is rejected
    with `InvalidState` and creates nothing. -/
theorem claim_c1_at_most_once_witness :
    (⟨"COMPLETED", "AC1", JValue.obj
        [("description", JValue.str "Oil change"),
         ("airframe_hours", JValue.num 1600)]⟩ : Scan).status = "COMPLETED" ∧
    wellFormedExtraction (JValue.obj
        [("description", JValue.str "Oil change"),
         ("airframe_hours", JValue.num 1600)]) = true ∧
    (∃ s, (apply_ocr_results
      ⟨"COMPLETED", "AC1", JValue.obj
        [("description", JValue.str "Oil change"), ("airframe_hours", JValue.num 1600)]⟩
      ⟨JValue.num 100, JValue.num 50, JValue.num 25⟩ true false "U1" "S1" "NOW").result =
      Except.ok s) ∧
    (apply_ocr_results
      ⟨"COMPLETED", "AC1", JValue.obj
        [("description", JValue.str "Oil change"), ("airframe_hours", JValue.num 1600)]⟩
      ⟨JValue.num 100, JValue.num 50, JValue.num 25⟩ true false "U1" "S1" "NOW").scanStatus =
      "APPLIED" ∧
    apply_ocr_results
      ⟨"APPLIED", "AC1", JValue.obj
        [("description", JValue.str "Oil change"), ("airframe_hours", JValue.num 1600)]⟩
      ⟨JValue.num 1600, JValue.num 50, JValue.num 25⟩ true false "U1" "S1" "NOW" =
      { result := Except.error (ApplyError.invalidState "Can only apply completed OCR scans"),
        scanStatus := "APPLIED", aircraft := ⟨JValue.num 1600, JValue.num 50, JValue.num 25⟩,
        maintenanceDocs := [], adsbDocs := [], partDocs := [], stcDocs := [],
        eltDoc := none, eltUpserted := false } := by
  have h := claim_c1_at_most_once
    ⟨"COMPLETED", "AC1", JValue.obj
      [("description", JValue.str "Oil change"), ("airframe_hours", JValue.num 1600)]⟩
    ⟨JValue.num 100, JValue.num 50, JValue.num 25⟩ true false "U1" "S1" "NOW" rfl rfl
  exact ⟨rfl, rfl, h.1, h.2.1,
    h.2.2 ⟨"APPLIED", "AC1", JValue.obj
        [("description", JValue.str "Oil change"), ("airframe_hours", JValue.num 1600)]⟩
      ⟨JValue.num 1600, JValue.num 50, JValue.num 25⟩ true false "U1" "S1" "NOW"
      (by decide)⟩

/-- C7 (counterexample): an extracted hour-counter equal to 0.0 is
    present but falsy, so the apply step does NOT overwrite the
    aircraft's counter with it — the claim's "overwrites unconditionally,
    including 0.0" fails. -/
theorem claim_c7_counterexample :
    (apply_ocr_results ⟨"COMPLETED", "AC1", JValue.obj [("airframe_hours", JValue.num 0)]⟩
      ⟨JValue.num 100, JValue.num 50, JValue.num 25⟩ true false "U1" "S1" "NOW").scanStatus =
      "APPLIED" ∧
    (apply_ocr_results ⟨"COMPLETED", "AC1", JValue.obj [("airframe_hours", JValue.num 0)]⟩
      ⟨JValue.num 100, JValue.num 50, JValue.num 25⟩ true false "U1" "S1" "NOW").aircraft =
      ⟨JValue.num 100, JValue.num 50, JValue.num 25⟩ := ⟨rfl, rfl⟩

/-- C7 (amended): with `update_aircraft_hours` true, each hour-counter
    whose extracted value is truthy (present, non-null and nonzero)
    overwrites the aircraft's counter unconditionally — no comparison, so
    even a lower reading wins — while a counter whose extracted value is
    absent, null or zero leaves the aircraft's counter unchanged; with
    the flag false all three counters are left unchanged. -/
theorem claim_c7_hours_overwrite :
    (∀ (scan : Scan) (aircraft : Aircraft) (e : Bool) (uid sid now : String),
      (apply_ocr_results scan aircraft false e uid sid now).aircraft = aircraft) ∧
    (∀ (scan : Scan) (aircraft : Aircraft) (e : Bool) (uid sid now : String) (ed : JObj),
      scan.status = "COMPLETED" → scan.extracted_data = JValue.obj ed →
      ((jTruthy (jGet ed "airframe_hours") = true →
          (apply_ocr_results scan aircraft true e uid sid now).aircraft.airframe_hours =
            jGet ed "airframe_hours") ∧
       (jTruthy (jGet ed "airframe_hours") = false →
          (apply_ocr_results scan aircraft true e uid sid now).aircraft.airframe_hours =
            aircraft.airframe_hours) ∧
       (jTruthy (jGet ed "engine_hours") = true →
          (apply_ocr_results scan aircraft true e uid sid now).aircraft.engine_hours =
            jGet ed "engine_hours") ∧
       (jTruthy (jGet ed "engine_hours") = false →
          (apply_ocr_results scan aircraft true e uid sid now).aircraft.engine_hours =
            aircraft.engine_hours) ∧
       (jTruthy (jGet ed "propeller_hours") = true →
          (apply_ocr_results scan aircraft true e uid sid now).aircraft.propeller_hours =
            jGet ed "propeller_hours") ∧
       (jTruthy (jGet ed "propeller_hours") = false →
          (apply_ocr_results scan aircraft true e uid sid now).aircraft.propeller_hours =
            aircraft.propeller_hours))) := by
  constructor
  · exact fun scan aircraft e uid sid now =>
      applyAircraftUnchangedNoFlag scan aircraft e uid sid now
  · intro scan aircraft e uid sid now ed hst hed
    have ha : (apply_ocr_results scan aircraft true e uid sid now).aircraft =
        updateAircraftHoursStep ed aircraft := by
      rw [applyAircraftEq scan aircraft true e uid sid now ed hst hed]
      rfl
    refine ⟨?_, ?_, ?_, ?_, ?_, ?_⟩ <;> intro htr <;> rw [ha] <;>
      simp [updateAircraftHoursStep, htr]

/-- C7 (witness): a truthy airframe reading lower than the aircraft's
    current value still overwrites it (last-write-wins), an absent engine
    reading leaves the engine counter unchanged, and with the flag false
    nothing changes. -/
theorem claim_c7_hours_overwrite_witness :
    (apply_ocr_results ⟨"COMPLETED", "AC1", JValue.obj [("airframe_hours", JValue.num 50)]⟩
      ⟨JValue.num 100, JValue.num 60, JValue.num 25⟩ false false "U1" "S1" "NOW").aircraft =
      ⟨JValue.num 100, JValue.num 60, JValue.num 25⟩ ∧
    jTruthy (jGet [("airframe_hours", JValue.num 50)] "airframe_hours") = true ∧
    (apply_ocr_results ⟨"COMPLETED", "AC1", JValue.obj [("airframe_hours", JValue.num 50)]⟩
      ⟨JValue.num 100, JValue.num 60, JValue.num 25⟩ true false
      "U1" "S1" "NOW").aircraft.airframe_hours = JValue.num 50 ∧
    (apply_ocr_results ⟨"COMPLETED", "AC1", JValue.obj [("airframe_hours", JValue.num 50)]⟩
      ⟨JValue.num 100, JValue.num 60, JValue.num 25⟩ true false
      "U1" "S1" "NOW").aircraft.engine_hours = JValue.num 60 := by
  have h := claim_c7_hours_overwrite.2
    ⟨"COMPLETED", "AC1", JValue.obj [("airframe_hours", JValue.num 50)]⟩
    ⟨JValue.num 100, JValue.num 60, JValue.num 25⟩ false "U1" "S1" "NOW"
    [("airframe_hours", JValue.num 50)] rfl rfl
  exact ⟨claim_c7_hours_overwrite.1
      ⟨"COMPLETED", "AC1", JValue.obj [("airframe_hours", JValue.num 50)]⟩
      ⟨JValue.num 100, JValue.num 60, JValue.num 25⟩ false "U1" "S1" "NOW",
    rfl, h.1 rfl, h.2.2.2.1 rfl⟩

/-- C10 (confirmed): none of the three per-type normalizers ever emits a
    locator-beacon (`elt_data`) block, and applying a scan whose
    extraction has no `elt_data` key never touches a locator-beacon
    record — the apply outcome always reports the beacon as not
    updated. -/
theorem claim_c10_no_elt :
    (∀ (d r : JObj), transform_maintenance_report d = Except.ok r →
      jLookup r "elt_data" = none) ∧
    (∀ d : JObj, jLookup (transform_stc d) "elt_data" = none) ∧
    (∀ (d r : JObj), transform_invoice d = Except.ok r → jLookup r "elt_data" = none) ∧
    (∀ (scan : Scan) (aircraft : Aircraft) (u e : Bool) (uid sid now : String) (ed : JObj),
      scan.extracted_data = JValue.obj ed → jLookup ed "elt_data" = none →
      (apply_ocr_results scan aircraft u e uid sid now).eltUpserted = false ∧
      (∀ s, (apply_ocr_results scan aircraft u e uid sid now).result = Except.ok s →
        s.elt_updated = false)) := by
  refine ⟨?_, ?_, ?_, ?_⟩
  · intro d r h
    simp only [transform_maintenance_report] at h
    cases h1 : mapGetItems (jGetD d "ad_sb_references" (JValue.arr [])) transformAdSbRef <;>
      rw [h1] at h
    · simp [exceptBindErr] at h
    cases h2 : mapGetItems (jGetD d "parts_replaced" (JValue.arr [])) transformPart <;>
      rw [h2] at h
    · simp [exceptBindOk, exceptBindErr] at h
    cases h3 : mapGetItems (jGetD d "stc_references" (JValue.arr [])) transformStcRef <;>
      rw [h3] at h
    · simp [exceptBindOk, exceptBindErr] at h
    simp only [exceptBindOk, exceptPureDef, Except.ok.injEq] at h
    subst h
    rfl
  · intro d
    rfl
  · intro d r h
    simp only [transform_invoice] at h
    cases h1 : mapGetItems (jGetD d "parts" (JValue.arr []))
        (transformInvoicePart (jGet d "supplier")) <;> rw [h1] at h
    · simp [exceptBindErr] at h
    simp only [exceptBindOk, exceptPureDef, Except.ok.injEq] at h
    subst h
    rfl
  · intro scan aircraft u e uid sid now ed hed hnone
    obtain ⟨st, aid, edv⟩ := scan
    simp only at hed
    subst hed
    have helt := eltStepNoElt uid aid sid now e ed hnone
    by_cases hst : st = "COMPLETED"
    · subst hst
      simp only [apply_ocr_results, pyGetAttrObj]
      cases hmd : maintenanceStep uid aid sid now ed with
      | error err => exact ⟨rfl, fun s hs => Except.noConfusion hs⟩
      | ok maintDocs =>
        cases hfa : fanout (jGetD ed "ad_sb_references" (JValue.arr []))
            (mkAdsbDoc uid aid sid now) with
        | mk adocs aerr =>
          cases aerr with
          | some err => exact ⟨rfl, fun s hs => Except.noConfusion hs⟩
          | none =>
            cases hfp : fanout (jGetD ed "parts_replaced" (JValue.arr []))
                (mkPartDoc uid aid sid now (jGet ed "airframe_hours")) with
            | mk pdocs perr =>
              cases perr with
              | some err => exact ⟨rfl, fun s hs => Except.noConfusion hs⟩
              | none =>
                cases hfs : fanout (jGetD ed "stc_references" (JValue.arr []))
                    (mkStcDoc uid aid sid now ed) with
                | mk sdocs serr =>
                  cases serr with
                  | some err => exact ⟨rfl, fun s hs => Except.noConfusion hs⟩
                  | none =>
                    rw [helt]
                    refine ⟨rfl, fun s hs => ?_⟩
                    injection hs with h2
                    rw [← h2]
    · rw [applyInvalidState ⟨st, aid, JValue.obj ed⟩ aircraft u e uid sid now
        (by simpa using hst)]
      exact ⟨rfl, fun s hs => Except.noConfusion hs⟩

/-- C10 (witness): the STC normalizer output has no locator-beacon
    block, and applying a concrete completed scan without one reports the
    beacon as untouched. -/
theorem claim_c10_no_elt_witness :
    jLookup (transform_stc []) "elt_data" = none ∧
    jLookup [("description", JValue.str "Complete overhaul")] "elt_data" = none ∧
    (apply_ocr_results
      ⟨"COMPLETED", "AC1", JValue.obj [("description", JValue.str "Complete overhaul")]⟩
      ⟨JValue.num 1, JValue.num 2, JValue.num 3⟩ true false "U1" "S1" "NOW").eltUpserted =
      false := by
  refine ⟨claim_c10_no_elt.2.1 [], rfl, ?_⟩
  exact (claim_c10_no_elt.2.2.2
    ⟨"COMPLETED", "AC1", JValue.obj [("description", JValue.str "Complete overhaul")]⟩
    ⟨JValue.num 1, JValue.num 2, JValue.num 3⟩ true false "U1" "S1" "NOW"
    [("description", JValue.str "Complete overhaul")] rfl rfl).1

end AeroLogix
